import Mathlib

/-!
Verification development for the `sst-config-generator` repository.

The TypeScript sources are shallowly embedded as Lean definitions:
pure functions become Lean functions, the in-memory saved-configuration
store becomes explicit state passing, HTTP handlers become pure functions
from a request abstraction (session, method, body, collaborator results)
to a response value, and the deployment bot becomes a function from an
environment describing the outcome of each external process invocation
to the list of emitted actions (progress frames, subprocess invocations,
cleanup events) together with a success/error result.

JavaScript-specific semantics that matter to the code are made explicit:
string interpolation of `undefined` produces the text "undefined",
truthiness of strings treats only the empty string as falsy, `||` returns
its right operand on a falsy left operand, and object spread gives later
keys priority.
-/

namespace SSTRepo

/-- JS truthiness of an optional string (`undefined` and `""` are falsy). -/
def strTruthy : Option String → Bool
  | none => false
  | some s => s ≠ ""

/-- JS `x || d` on an optional string: the default wins when `x` is falsy. -/
def strOrElse (x : Option String) (d : String) : String :=
  match x with
  | none => d
  | some s => if s = "" then d else s

/-- JS template interpolation of a possibly-`undefined` string value. -/
def interpOpt : Option String → String
  | none => "undefined"
  | some s => s

/-- `src/types/index.ts`: the closed set of project classifications. -/
inductive ProjectType where
  | SSR
  | CSR
  | STATIC
deriving DecidableEq

/-- `src/types/index.ts`: `userDistribution: 'single' | 'worldwide'`. -/
inductive UserDistribution where
  | single
  | worldwide
deriving DecidableEq

/-- The `customDomain` object of a `DeploymentConfig`
(`{ enabled: boolean; domain?: string }`). -/
structure CustomDomain where
  enabled : Bool
  domain : Option String
deriving DecidableEq

/-- `src/types/index.ts` `DeploymentConfig`.  The TS fields `performance`
and `expectedUsers` are the literal types `'fast'` and `'<100'`; they are
carried as plain strings here and are never read by the generator. -/
structure DeploymentConfig where
  projectName : String
  framework : String
  projectType : ProjectType
  region : String
  customDomain : Option CustomDomain
  userDistribution : UserDistribution
  buildCommand : Option String
  outputDir : String
  performance : String
  expectedUsers : String
deriving DecidableEq

/-- Truthiness of `config.customDomain?.enabled`. -/
def domainEnabled (c : DeploymentConfig) : Bool :=
  match c.customDomain with
  | none => false
  | some cd => cd.enabled

namespace SSTGenerator

/-- `sst-generator.ts` `estimateCost`: base cost table, Route53 surcharge,
and the `$low-high` string via `Math.round`/`Math.max` (JS `Math.round`
rounds half toward positive infinity, as Mathlib `round` does). -/
def estimateCost (c : DeploymentConfig) : String :=
  let base : ℚ :=
    match c.projectType with
    | .STATIC => if c.userDistribution = .worldwide then 5 else 1
    | .CSR => if c.userDistribution = .worldwide then 8 else 2
    | .SSR => if c.userDistribution = .worldwide then 15 else 8
  let base : ℚ := if domainEnabled c then base + 1/2 else base
  let lowEnd : ℤ := max 1 (round (base * (4/5 : ℚ)))
  let highEnd : ℤ := round (base * (3/2 : ℚ))
  "$" ++ toString lowEnd ++ "-" ++ toString highEnd

/-- `generateSSRConfig`: choice of SST construct from the framework label. -/
def constructType (framework : String) : String :=
  let ct := "NextjsSite"
  let ct := if framework = "Nuxt" then "SvelteKitSite" else ct
  let ct := if framework = "SvelteKit" then "SvelteKitSite" else ct
  if framework = "Remix" then "RemixSite" else ct

/-- The interpolated `customDomain.domain` value (the domain may be absent
even when `enabled` is set, in which case JS interpolates "undefined"). -/
def domainValue (c : DeploymentConfig) : String :=
  interpOpt ((c.customDomain.map CustomDomain.domain).join)

/-- The `customDomain` block emitted (identically) by all three templates
when `customDomain?.enabled` is truthy (empty string otherwise). -/
def domainSeg (c : DeploymentConfig) : String :=
  if domainEnabled c then
    "\n        customDomain: \x7b\n          domainName: \""
      ++ domainValue c
      ++ "\",\n        \x7d,"
  else ""

/-- The `edge` block emitted by `generateSSRConfig` for worldwide users. -/
def ssrCdnSeg (c : DeploymentConfig) : String :=
  if c.userDistribution = .worldwide then
    "\n        \n        // Global CDN for worldwide users\n        edge: \x7b\n          // Automatic global distribution and caching\n          viewerProtocolPolicy: \"redirect-to-https\",\n        \x7d,"
  else ""

/-- SSR template, from the start to the interpolated project name. -/
def ssrT1 (c : DeploymentConfig) : String :=
  "import \x7b SSTConfig \x7d from \"sst\";\nimport \x7b "
    ++ constructType c.framework
    ++ " \x7d from \"sst/constructs\";\n\nexport default \x7b\n  config(_input) \x7b\n    return \x7b\n      name: \""

/-- Template text between the interpolated name and region (shared by all
three templates). -/
def regionLit : String := "\",\n      region: \""

/-- SSR template, from the region to the conditional `customDomain` block. -/
def ssrT2 (c : DeploymentConfig) : String :=
  "\",\n    \x7d;\n  \x7d,\n  stacks(app) \x7b\n    app.stack(function Site(\x7b stack \x7d) \x7b\n      const site = new "
    ++ constructType c.framework
    ++ "(stack, \""
    ++ c.projectName
    ++ "\", \x7b"

/-- SSR template, from after the conditional blocks to the end. -/
def ssrT3 (c : DeploymentConfig) : String :=
  "\n        \n        // Smart defaults for optimal performance\n        runtime: \x7b\n          // Balanced memory for good performance\n          memory: \"1024 MB\",\n          timeout: \"10 seconds\",\n        \x7d,\n        \n        environment: \x7b\n          // Add your environment variables here\n          NODE_ENV: \"production\",\n        \x7d,\n      \x7d);\n\n      stack.addOutputs(\x7b\n        SiteUrl: site.url,\n      \x7d);\n    \x7d);\n  \x7d,\n\x7d satisfies SSTConfig;\n\n// Configuration Summary:\n// • Framework: "
    ++ c.framework
    ++ " (Server-Side Rendered)\n// • Distribution: "
    ++ (if c.userDistribution = .worldwide then "Global CDN" else "Regional")
    ++ "\n// • Custom Domain: "
    ++ (if domainEnabled c then domainValue c else "Default AWS URL")
    ++ "\n// • Estimated Cost: "
    ++ estimateCost c
    ++ "/month"

/-- `sst-generator.ts` `generateSSRConfig`: the SSR template literal. -/
def generateSSRConfig (c : DeploymentConfig) : String :=
  ssrT1 c ++ c.projectName ++ regionLit ++ c.region
    ++ ssrT2 c ++ domainSeg c ++ ssrCdnSeg c ++ ssrT3 c

/-- The `cloudFrontDistribution` block of the CSR template. -/
def csrCdnSeg (c : DeploymentConfig) : String :=
  if c.userDistribution = .worldwide then
    "\n        \n        // Global CloudFront CDN for worldwide users\n        cloudFrontDistribution: \x7b\n          defaultBehavior: \x7b\n            // Smart caching and compression\n            cachePolicy: \"CachingOptimized\",\n            compress: true,\n            viewerProtocolPolicy: \"redirect-to-https\",\n          \x7d,\n          // Optimized caching for different file types\n          additionalBehaviors: \x7b\n            \"/static/*\": \x7b\n              // Long cache for static assets\n              cachePolicy: \"CachingOptimized\",\n              compress: true,\n            \x7d,\n            \"*.css\": \x7b\n              cachePolicy: \"CachingOptimized\",\n              compress: true,\n            \x7d,\n            \"*.js\": \x7b\n              cachePolicy: \"CachingOptimized\", \n              compress: true,\n            \x7d,\n          \x7d,\n        \x7d,"
  else ""

/-- The extra `CDNUrl` output line emitted for worldwide users. -/
def cdnUrlSeg (c : DeploymentConfig) : String :=
  if c.userDistribution = .worldwide then
    "\n        CDNUrl: site.cloudFrontDistribution?.distributionDomainName,"
  else ""

/-- Shared CSR/static template text from the start to the project name
(both templates import and instantiate `StaticSite`). -/
def siteT1 : String :=
  "import \x7b SSTConfig \x7d from \"sst\";\nimport \x7b StaticSite \x7d from \"sst/constructs\";\n\nexport default \x7b\n  config(_input) \x7b\n    return \x7b\n      name: \""

/-- CSR template, from the region to the conditional `customDomain` block
(unconditional `buildCommand`/`buildOutput` lines). -/
def csrT2 (c : DeploymentConfig) : String :=
  "\",\n    \x7d;\n  \x7d,\n  stacks(app) \x7b\n    app.stack(function Site(\x7b stack \x7d) \x7b\n      const site = new StaticSite(stack, \""
    ++ c.projectName
    ++ "\", \x7b\n        path: \".\",\n        buildCommand: \""
    ++ interpOpt c.buildCommand
    ++ "\",\n        buildOutput: \""
    ++ c.outputDir
    ++ "\","

/-- CSR template, from after the conditional blocks to the end. -/
def csrT3 (c : DeploymentConfig) : String :=
  "\n        \n        environment: \x7b\n          // Add your runtime environment variables here\n          REACT_APP_ENV: \"production\",\n        \x7d,\n      \x7d);\n\n      stack.addOutputs(\x7b\n        SiteUrl: site.url,"
    ++ cdnUrlSeg c
    ++ "\n      \x7d);\n    \x7d);\n  \x7d,\n\x7d satisfies SSTConfig;\n\n// Configuration Summary:\n// • Type: "
    ++ c.framework
    ++ " (Client-Side Rendered)\n// • Distribution: "
    ++ (if c.userDistribution = .worldwide then "Global CDN" else "Regional")
    ++ "  \n// • Custom Domain: "
    ++ (if domainEnabled c then domainValue c else "Default AWS URL")
    ++ "\n// • Estimated Cost: "
    ++ estimateCost c
    ++ "/month"

/-- `sst-generator.ts` `generateCSRConfig`: the CSR template literal. -/
def generateCSRConfig (c : DeploymentConfig) : String :=
  siteT1 ++ c.projectName ++ regionLit ++ c.region
    ++ csrT2 c ++ domainSeg c ++ csrCdnSeg c ++ csrT3 c

/-- `generateStaticConfig`: `buildCommand && buildCommand !== 'null'`. -/
def hasBuildProcess (c : DeploymentConfig) : Bool :=
  match c.buildCommand with
  | none => false
  | some s => s ≠ "" && s ≠ "null"

/-- The optional `buildCommand` line of the static template. -/
def staticBuildSeg (c : DeploymentConfig) : String :=
  if hasBuildProcess c then
    "\n        buildCommand: \"" ++ interpOpt c.buildCommand ++ "\","
  else ""

/-- The `cloudFrontDistribution` block of the static template. -/
def staticCdnSeg (c : DeploymentConfig) : String :=
  if c.userDistribution = .worldwide then
    "\n        \n        // Global CloudFront CDN for worldwide users\n        cloudFrontDistribution: \x7b\n          defaultBehavior: \x7b\n            // Automatic compression and caching\n            cachePolicy: \"CachingOptimized\",\n            compress: true,\n            viewerProtocolPolicy: \"redirect-to-https\",\n          \x7d,\n          // Smart caching for different content types\n          additionalBehaviors: \x7b\n            \"*.html\": \x7b\n              // Short cache for HTML (content updates)\n              cachePolicyId: \"4135ea2d-6df8-44a3-9df3-4b5a84be39ad\",\n            \x7d,\n            \"*.css\": \x7b\n              // Long cache for CSS (versioned files)\n              cachePolicy: \"CachingOptimized\",\n            \x7d,\n            \"*.js\": \x7b\n              // Long cache for JavaScript (versioned files)\n              cachePolicy: \"CachingOptimized\",\n            \x7d,\n            \"*.png,*.jpg,*.jpeg,*.gif,*.ico,*.svg\": \x7b\n              // Very long cache for images\n              cachePolicy: \"CachingOptimized\",\n            \x7d,\n          \x7d,\n        \x7d,"
  else ""

/-- Static template, from the region to the conditional `customDomain`
block (conditional `buildCommand`, unconditional `buildOutput`). -/
def staticT2 (c : DeploymentConfig) : String :=
  "\",\n    \x7d;\n  \x7d,\n  stacks(app) \x7b\n    app.stack(function Site(\x7b stack \x7d) \x7b\n      const site = new StaticSite(stack, \""
    ++ c.projectName
    ++ "\", \x7b\n        path: \".\","
    ++ staticBuildSeg c
    ++ "\n        buildOutput: \""
    ++ c.outputDir
    ++ "\","

/-- Static template, from after the conditional blocks to the end. -/
def staticT3 (c : DeploymentConfig) : String :=
  "\n      \x7d);\n\n      stack.addOutputs(\x7b\n        SiteUrl: site.url,"
    ++ cdnUrlSeg c
    ++ "\n      \x7d);\n    \x7d);\n  \x7d,\n\x7d satisfies SSTConfig;\n\n// Configuration Summary:\n// • Type: "
    ++ (if hasBuildProcess c then "Generated Static Site" else "Pure HTML/CSS")
    ++ "\n// • Distribution: "
    ++ (if c.userDistribution = .worldwide
        then "Global CDN (faster worldwide)" else "Regional (lower cost)")
    ++ "\n// • Custom Domain: "
    ++ (if domainEnabled c then domainValue c ++ " (with free SSL)"
        else "Default AWS URL")
    ++ "\n// • Smart Features: Automatic compression, optimized caching, HTTPS\n// • Estimated Cost: "
    ++ estimateCost c
    ++ "/month"

/-- `sst-generator.ts` `generateStaticConfig`: the static template literal. -/
def generateStaticConfig (c : DeploymentConfig) : String :=
  siteT1 ++ c.projectName ++ regionLit ++ c.region
    ++ staticT2 c ++ domainSeg c ++ staticCdnSeg c ++ staticT3 c

/-- `sst-generator.ts` `generateSSTConfig`: dispatch on the project type. -/
def generateSSTConfig (c : DeploymentConfig) : String :=
  match c.projectType with
  | .SSR => generateSSRConfig c
  | .CSR => generateCSRConfig c
  | .STATIC => generateStaticConfig c

/-- `sst-generator.ts` `generatePackageJson` (fixed scripts, name field). -/
def generatePackageJson (c : DeploymentConfig) : String :=
  "\x7b\n  \"name\": \"" ++ c.projectName
    ++ "\",\n  \"version\": \"0.1.0\",\n  \"scripts\": \x7b\n    \"sst:dev\": \"sst dev\",\n    \"sst:build\": \"sst build\",\n    \"sst:deploy\": \"sst deploy\",\n    \"sst:deploy:prod\": \"sst deploy --stage production\",\n    \"sst:remove\": \"sst remove\"\n  \x7d,\n  \"devDependencies\": \x7b\n    \"sst\": \"^3.0.0\"\n  \x7d\n\x7d"

/-- `generateConfig`: the two emitted files, as (filename, content) pairs. -/
def generateConfig (c : DeploymentConfig) : List (String × String) :=
  [("sst.config.ts", generateSSTConfig c), ("package.json", generatePackageJson c)]

end SSTGenerator

/-! ## Project-type detection (`AWSDeployBot.detectProjectType`) -/

/-- A parsed `package.json`, as far as `detectProjectType` reads it:
the two dependency objects (key/value pairs in insertion order) and
`scripts?.build`. -/
structure PackageJson where
  dependencies : List (String × String)
  devDependencies : List (String × String)
  buildScript : Option String
deriving DecidableEq

/-- JS object lookup `o[k]` on a key/value list (objects have unique keys;
with duplicates the later entry wins, as in a JS object literal). -/
def jsLookup (kvs : List (String × String)) (k : String) : Option String :=
  kvs.foldl (fun acc kv => if kv.1 = k then some kv.2 else acc) none

/-- `const deps = { ...packageJson.dependencies, ...packageJson.devDependencies }`:
lookup in the merged object (devDependencies win). -/
def depLookup (p : PackageJson) (k : String) : Option String :=
  match jsLookup p.devDependencies k with
  | some v => some v
  | none => jsLookup p.dependencies k

/-- Truthiness of `deps[k]` in the merged dependency object. -/
def hasDep (p : PackageJson) (k : String) : Bool :=
  strTruthy (depLookup p k)

/-- `Object.keys(deps)` for the merged dependency object: first-insertion
order, i.e. keys of `dependencies` then the new keys of `devDependencies`. -/
def depKeys (p : PackageJson) : List String :=
  let base := p.dependencies.map Prod.fst
  base ++ (p.devDependencies.map Prod.fst).filter (fun k => ¬ (k ∈ base))

/-- The analysis record produced by `AWSDeployBot.detectProjectType`. -/
structure BotAnalysis where
  type : ProjectType
  framework : String
  buildCommand : Option String
  outputDir : String
  dependencies : List String
deriving DecidableEq

/-- The pure classification at the heart of `AWSDeployBot.detectProjectType`
(`src/unnamed/part_003`, lines 104-162): `none` models a clone with no
`package.json` file; otherwise the fixed rule chain over the merged
dependency object is applied in source order. -/
def classify (pkg : Option PackageJson) : BotAnalysis :=
  match pkg with
  | none => ⟨.STATIC, "Static HTML", none, ".", []⟩
  | some p =>
    if hasDep p "next" then
      ⟨.SSR, "Next.js", some "npm run build", ".next", depKeys p⟩
    else if hasDep p "react" && hasDep p "react-dom" then
      ⟨.CSR, "React SPA", some "npm run build", "build", depKeys p⟩
    else if hasDep p "vue" then
      ⟨.CSR, "Vue SPA", some "npm run build", "dist", depKeys p⟩
    else if hasDep p "@angular/core" then
      ⟨.CSR, "Angular", some "ng build", "dist", depKeys p⟩
    else
      -- `packageJson.scripts?.build || undefined`: an empty build script is falsy.
      ⟨.STATIC, "Static Site",
        (match p.buildScript with
         | none => none
         | some s => if s = "" then none else some s), ".", depKeys p⟩

/-- A cloned repository as the detector sees it: the parse of a
`package.json` when the file exists, plus the other root files (which the
detector never consults). -/
structure ClonedRepo where
  packageJson : Option PackageJson
  rootFiles : List String
deriving DecidableEq

/-- `AWSDeployBot.detectProjectType` reads only the `package.json`. -/
def detectProjectType (r : ClonedRepo) : BotAnalysis :=
  classify r.packageJson

/-- The server-rendering framework dependencies recognized by this
repository's own analyzer rule table (`claude-analyzer.ts`, detection
rules 1: Next.js "next", Nuxt "nuxt", SvelteKit "@sveltejs/kit",
Remix "@remix-run/node"). -/
def ssrFrameworkDeps : List String :=
  ["next", "nuxt", "@sveltejs/kit", "@remix-run/node"]

/-! ## Sessions and the saved-configuration store -/

/-- The parts of a NextAuth session object the handlers read. -/
structure Session where
  accessToken : Option String
  userEmail : Option String
deriving DecidableEq

/-- Truthiness of `session?.accessToken`. -/
def sessionToken (s : Option Session) : Option String :=
  match s with
  | none => none
  | some sess =>
    match sess.accessToken with
    | none => none
    | some t => if t = "" then none else some t

/-- Truthiness of `session?.user?.email`. -/
def sessionEmail (s : Option Session) : Option String :=
  match s with
  | none => none
  | some sess =>
    match sess.userEmail with
    | none => none
    | some e => if e = "" then none else some e

/-- HTTP methods, as far as the handlers distinguish them. -/
inductive HttpMethod where
  | GET
  | POST
  | other
deriving DecidableEq

/-- The body of a `POST /api/configs` request
(`src/pages/index.tsx` `saveConfiguration`). -/
structure SavedBody where
  name : String
  repository : String
  config : DeploymentConfig
deriving DecidableEq

/-- One entry of the in-memory `savedConfigs` store.  The handler builds
`{ id: Date.now().toString(), ...req.body, createdAt, updatedAt }`; the
body shape above has no `id`/timestamp keys, so the generated values are
kept. -/
structure SavedEntry where
  id : String
  name : String
  repository : String
  config : DeploymentConfig
  createdAt : String
  updatedAt : String
deriving DecidableEq

/-- The module-level `savedConfigs: Record<string, any[]>` store.  Reads
use `savedConfigs[u] || []`, so the store is total with default `[]`. -/
def Store := String → List SavedEntry

/-- The entry the POST branch constructs (`idStr` is
`Date.now().toString()`, `iso` is `new Date().toISOString()`). -/
def mkEntry (b : SavedBody) (idStr iso : String) : SavedEntry :=
  ⟨idStr, b.name, b.repository, b.config, iso, iso⟩

/-- Responses of the saved-configurations handler. -/
inductive ConfigsResult where
  | unauthorized
  | list (cs : List SavedEntry)
  | saved (c : SavedEntry)
  | methodNotAllowed
deriving DecidableEq

/-- The `/api/configs` handler (second document of
`src/pages/api/repositories.ts`): session-email guard, then GET lists the
caller's entries and POST appends one entry to the caller's list. -/
def savedConfigsHandler (session : Option Session) (method : HttpMethod)
    (body : SavedBody) (idStr iso : String) (s : Store) :
    ConfigsResult × Store :=
  match sessionEmail session with
  | none => (.unauthorized, s)
  | some u =>
    match method with
    | .GET => (.list (s u), s)
    | .POST =>
      let e := mkEntry body idStr iso
      (.saved e, fun v => if v = u then s u ++ [e] else s v)
    | .other => (.methodNotAllowed, s)

/-! ## The other HTTP handlers (session guards and top-level control flow) -/

/-- `src/types/index.ts` `Repository` (read-only data from GitHub). -/
structure Repository where
  id : Int
  name : String
  full_name : String
  isPrivate : Bool
  html_url : String
  description : Option String
  language : Option String
deriving DecidableEq

/-- Responses of `/api/repositories` (first document of
`src/pages/api/repositories.ts`). -/
inductive ReposResult where
  | unauthorized
  | ok (repos : List Repository)
  | serverError
deriving DecidableEq

/-- `/api/repositories`: guard on `session?.accessToken`, then relay the
GitHub listing or convert a thrown error to a 500. -/
def repositoriesHandler (session : Option Session)
    (fetched : Except Unit (List Repository)) : ReposResult :=
  match sessionToken session with
  | none => .unauthorized
  | some _ =>
    match fetched with
    | .ok rs => .ok rs
    | .error _ => .serverError

/-- Responses of `/api/analyze/[owner]/[repo]`. -/
inductive AnalyzeResult where
  | unauthorized
  | ok (a : BotAnalysis)
  | serverError
deriving DecidableEq

/-- `/api/analyze/[owner]/[repo]`: guard on `session?.accessToken`, then
relay the analysis or convert a thrown error to a 500.  The analysis value
itself comes from the external GitHub and language-model collaborators. -/
def analyzeHandler (session : Option Session)
    (analysis : Except Unit BotAnalysis) : AnalyzeResult :=
  match sessionToken session with
  | none => .unauthorized
  | some _ =>
    match analysis with
    | .ok a => .ok a
    | .error _ => .serverError

/-- Responses of `/api/generate-config`.  The success payload is the
archive's file list (zip packaging is external I/O). -/
inductive GenerateConfigResult where
  | unauthorized
  | methodNotAllowed
  | ok (files : List (String × String))
  | serverError
deriving DecidableEq

/-- `src/pages/api/generate-config.ts` `handler`: a method guard and the
generator call.  The handler never reads a session: the `session`
argument is the session the request would carry, and it is unused, exactly
as in the source. -/
def generateConfigHandler (_session : Option Session) (method : HttpMethod)
    (config : DeploymentConfig) : GenerateConfigResult :=
  match method with
  | .POST => .ok (SSTGenerator.generateConfig config)
  | _ => .methodNotAllowed

/-- Responses of `/api/generate-deploy-script`. -/
inductive DeployScriptResult where
  | unauthorized
  | methodNotAllowed
  | badRequest
  | ok
  | serverError
deriving DecidableEq

/-- `src/pages/api/generate-deploy-script.ts` `handler`: a method guard,
a missing-repository guard, then the archive build (whose content is not
needed by any claim and is abstracted to `.ok`).  As in the source, the
session is never read. -/
def generateDeployScriptHandler (_session : Option Session)
    (method : HttpMethod) (repository : Option Repository)
    (_config : DeploymentConfig) : DeployScriptResult :=
  match method with
  | .POST =>
    match repository with
    | none => .badRequest
    | some _ => .ok
  | _ => .methodNotAllowed

/-! ## The deployment bot (`src/unnamed/part_003`) and its SSE stream

The bot is a straight-line script of external-process invocations.  It is
embedded as a function from a `DeployEnv` — the outcome of every external
invocation (success flags, error messages, subprocess output, filesystem
state at cleanup time) — to the ordered list of observable actions
(progress callbacks, subprocess runs, the cleanup call) and a result. -/

/-- `replace(pat, r)` with a plain-string pattern and empty replacement
replaces only the first occurrence, as JS `String.replace` does. -/
def removeFirst (pat : List Char) : List Char → List Char
  | [] => []
  | c :: cs =>
    if pat.isPrefixOf (c :: cs) then (c :: cs).drop pat.length
    else c :: removeFirst pat cs

/-- `AWSDeployBot.extractProjectName`:
`url.split('/').pop()?.replace('.git', '') || 'unknown-project'`. -/
def extractProjectName (url : String) : String :=
  let popped := (url.split (· = '/')).getLast?
  strOrElse (popped.map (fun s => ⟨removeFirst ".git".data s.data⟩))
    "unknown-project"

/-- The whitespace class of the JS regex `\s` (the characters that can
occur in CLI output). -/
def isWsChar (c : Char) : Bool :=
  c = ' ' || c = '\t' || c = '\n' || c = '\r' || c = '\x0b' || c = '\x0c'

/-- One attempt of the regex `SiteUrl:\s+(https?:\/\/[^\s]+)` at the
head of `cs`: the literal marker, at least one whitespace character, then
a maximal non-whitespace run that begins with an HTTP(S) scheme and
extends past it. -/
def matchSiteUrlAt (cs : List Char) : Option (List Char) :=
  if "SiteUrl:".data.isPrefixOf cs then
    let rest := cs.drop 8
    let ws := rest.takeWhile isWsChar
    if ws.isEmpty then none
    else
      let run := (rest.drop ws.length).takeWhile (fun c => ¬ isWsChar c)
      if "https://".data.isPrefixOf run ∧ 8 < run.length then some run
      else if "http://".data.isPrefixOf run ∧ 7 < run.length then some run
      else none
  else none

/-- Leftmost match of `SiteUrl:\s+(https?:\/\/[^\s]+)` in the output. -/
def findSiteUrl : List Char → Option (List Char)
  | [] => none
  | c :: cs =>
    match matchSiteUrlAt (c :: cs) with
    | some u => some u
    | none => findSiteUrl cs

/-- `deployToAWS`: the extracted `SiteUrl` or the fallback URL. -/
def siteUrlOrDefault (output projectName stage : String) : String :=
  match findSiteUrl output.data with
  | some u => ⟨u⟩
  | none => "https://" ++ projectName ++ "-" ++ stage ++ ".example.com"

/-- An observable action of a deployment run: a progress callback
invocation, a subprocess invocation, a config write, the cleanup call, or
the scratch-directory deletion. -/
inductive DAct where
  | frame (progress : Nat) (step message : String) (url : Option String)
  | runClone
  | runNpmInstall
  | runSstInstall
  | runBootstrap
  | runDeploy
  | writeConfig
  | cleanupCall
  | removeDir
deriving DecidableEq

/-- The outcome of every external invocation a run can make.  Error-message
fields carry the `message` of the `Error` the corresponding invocation
would throw. -/
structure DeployEnv where
  repoUrl : String
  stage : Option String
  gitOk : Bool
  nodeOk : Bool
  npmOk : Bool
  awsOk : Bool
  credsOk : Bool
  cloneOk : Bool
  cloneErrMsg : String
  pkgFileExists : Bool
  pkgParse : Except String PackageJson
  npmInstallOk : Bool
  npmInstallErrMsg : String
  sstInstallOk : Bool
  sstInstallErrMsg : String
  writeOk : Bool
  writeErrMsg : String
  bootstrapOk : Bool
  deployOk : Bool
  deployErrMsg : String
  deployOutput : String
  dirExistsAtCleanup : Bool
  rmOk : Bool

/-- `checkPrerequisites`: the loop body over the fixed check list; each
passing check emits one progress-5 frame, the first failing check throws. -/
def runChecks : List (String × Bool) → List DAct × Except String Unit
  | [] => ([], .ok ())
  | (n, ok) :: rest =>
    if ok then
      let r := runChecks rest
      (DAct.frame 5 "Checking prerequisites" ("✅ " ++ n ++ " is configured") none :: r.1,
       r.2)
    else ([], .error ("❌ " ++ n ++ " is not installed or configured"))

/-- `AWSDeployBot.checkPrerequisites`. -/
def checkPrerequisites (e : DeployEnv) : List DAct × Except String Unit :=
  let r := runChecks
    [("Git", e.gitOk), ("Node.js", e.nodeOk), ("npm", e.npmOk),
     ("AWS CLI", e.awsOk), ("AWS credentials", e.credsOk)]
  (DAct.frame 5 "Checking prerequisites" "🔍 Checking prerequisites..." none :: r.1,
   r.2)

/-- `AWSDeployBot.cloneRepository`. -/
def cloneRepository (e : DeployEnv) : List DAct × Except String Unit :=
  let pre := [DAct.frame 15 "Cloning repository"
                ("📥 Cloning repository: " ++ e.repoUrl) none,
              DAct.runClone]
  if e.cloneOk then
    (pre ++ [DAct.frame 25 "Repository cloned" "✅ Repository cloned successfully" none],
     .ok ())
  else (pre, .error ("Failed to clone repository: " ++ e.cloneErrMsg))

/-- `AWSDeployBot.detectProjectType` as a run step: the missing-manifest
branch, the `JSON.parse` failure (which propagates uncaught), and the
rule-chain classification `classify`. -/
def detectStep (e : DeployEnv) : List DAct × Except String BotAnalysis :=
  let pre := [DAct.frame 30 "Analyzing project" "🔍 Detecting project type..." none]
  if e.pkgFileExists then
    match e.pkgParse with
    | .error m => (pre, .error m)
    | .ok p =>
      let a := classify (some p)
      (pre ++ [DAct.frame 35 "Project analyzed" ("✅ Detected: " ++ a.framework) none],
       .ok a)
  else
    (pre ++ [DAct.frame 35 "Project analyzed" "✅ Detected: Static HTML website" none],
     .ok (classify none))

/-- `AWSDeployBot.installDependencies`. -/
def installStep (e : DeployEnv) : List DAct × Except String Unit :=
  if e.pkgFileExists then
    let pre := [DAct.frame 40 "Installing dependencies" "📦 Installing dependencies..." none,
                DAct.frame 42 "Installing dependencies" "📦 Installing project dependencies..." none,
                DAct.runNpmInstall]
    if e.npmInstallOk then
      let pre2 := pre ++ [DAct.frame 45 "Installing SST" "⚡ Installing SST..." none,
                          DAct.runSstInstall]
      if e.sstInstallOk then
        (pre2 ++ [DAct.frame 50 "Dependencies installed" "✅ Dependencies installed" none],
         .ok ())
      else (pre2, .error ("Failed to install dependencies: " ++ e.sstInstallErrMsg))
    else (pre, .error ("Failed to install dependencies: " ++ e.npmInstallErrMsg))
  else
    ([DAct.frame 45 "Skipping dependencies"
        "⏭️ Skipping dependency installation (static HTML)" none],
     .ok ())

/-- The `DeploymentConfig` `addSSTConfig` builds from the analysis. -/
def botDeploymentConfig (e : DeployEnv) (a : BotAnalysis) : DeploymentConfig :=
  ⟨extractProjectName e.repoUrl, a.framework, a.type, "us-east-1",
   some ⟨false, none⟩, .worldwide, a.buildCommand, a.outputDir, "fast", "<100"⟩

/-- `AWSDeployBot.addSSTConfig`: generate the config (pure) and write it;
`writeOk` covers the step's filesystem writes (`sst.config.ts` and the
`package.json` update), whose failure propagates uncaught. -/
def addSSTConfigStep (e : DeployEnv) (_a : BotAnalysis) :
    List DAct × Except String Unit :=
  let pre := [DAct.frame 55 "Generating SST config"
                "⚙️ Generating optimized SST configuration..." none,
              DAct.writeConfig]
  if e.writeOk then
    (pre ++ [DAct.frame 65 "SST config added" "✅ Optimized SST configuration added" none],
     .ok ())
  else (pre, .error e.writeErrMsg)

/-- `AWSDeployBot.deployToAWS`: a failed bootstrap is tolerated (with an
extra progress-75 frame from its catch); a failed deploy throws. -/
def deployToAWSStep (e : DeployEnv) : List DAct × Except String String :=
  let stg := strOrElse e.stage "production"
  let pre :=
    [DAct.frame 70 "Deploying to AWS"
       ("🚀 Deploying to AWS (stage: " ++ stg ++ ")...") none,
     DAct.frame 72 "Deploying to AWS"
       "This may take 5-10 minutes for the first deployment..." none,
     DAct.frame 75 "Bootstrapping SST" "⚡ Bootstrapping SST..." none,
     DAct.runBootstrap]
    ++ (if e.bootstrapOk then []
        else [DAct.frame 75 "SST ready" "✅ SST bootstrap ready" none])
    ++ [DAct.frame 80 "Deploying resources" "🏗️ Creating AWS resources..." none,
        DAct.runDeploy]
  if e.deployOk then
    (pre ++ [DAct.frame 95 "Deployment successful" "🎉 AWS deployment completed!" none],
     .ok (siteUrlOrDefault e.deployOutput (extractProjectName e.repoUrl) stg))
  else (pre, .error ("Deployment failed: " ++ e.deployErrMsg))

/-- `AWSDeployBot.cleanup`: the entry event, then — only when a scratch
directory was assigned and still exists — the progress-98 frame, the
deletion, and (when the deletion succeeds) the progress-100 frame; a
failed deletion is swallowed. -/
def cleanupActs (e : DeployEnv) (tempDirSet : Bool) : List DAct :=
  DAct.cleanupCall ::
    (if tempDirSet && e.dirExistsAtCleanup then
      [DAct.frame 98 "Cleaning up" "🧹 Cleaning up temporary files..." none,
       DAct.removeDir]
        ++ (if e.rmOk then
              [DAct.frame 100 "Cleanup complete" "✅ Cleanup complete" none]
            else [])
    else [])

/-- The catch block of `AWSDeployBot.deploy`: the progress-0 failure frame,
then the best-effort cleanup, before the error is rethrown. -/
def failTail (e : DeployEnv) (tempDirSet : Bool) (m : String) : List DAct :=
  DAct.frame 0 "Deployment failed" ("❌ " ++ m) none :: cleanupActs e tempDirSet

/-- `AWSDeployBot.deploy`: the sequential run.  The scratch directory is
assigned before the clone subprocess starts, so cleanup sees it for every
failure from the clone step on. -/
def deploy (e : DeployEnv) : List DAct × Except String (String × String) :=
  let start := [DAct.frame 0 "Starting deployment" "🚀 AWS Deploy Bot Starting..." none]
  let c1 := checkPrerequisites e
  match c1.2 with
  | .error m => (start ++ c1.1 ++ failTail e false m, .error m)
  | .ok _ =>
    let c2 := cloneRepository e
    match c2.2 with
    | .error m => (start ++ c1.1 ++ c2.1 ++ failTail e true m, .error m)
    | .ok _ =>
      let c3 := detectStep e
      match c3.2 with
      | .error m => (start ++ c1.1 ++ c2.1 ++ c3.1 ++ failTail e true m, .error m)
      | .ok a =>
        let c4 := installStep e
        match c4.2 with
        | .error m =>
          (start ++ c1.1 ++ c2.1 ++ c3.1 ++ c4.1 ++ failTail e true m, .error m)
        | .ok _ =>
          let c5 := addSSTConfigStep e a
          match c5.2 with
          | .error m =>
            (start ++ c1.1 ++ c2.1 ++ c3.1 ++ c4.1 ++ c5.1 ++ failTail e true m,
             .error m)
          | .ok _ =>
            let c6 := deployToAWSStep e
            match c6.2 with
            | .error m =>
              (start ++ c1.1 ++ c2.1 ++ c3.1 ++ c4.1 ++ c5.1 ++ c6.1 ++ failTail e true m,
               .error m)
            | .ok url =>
              (start ++ c1.1 ++ c2.1 ++ c3.1 ++ c4.1 ++ c5.1 ++ c6.1
                 ++ cleanupActs e true
                 ++ [DAct.frame 100 "Deployment complete" "✅ Deployment successful!" (some url)],
               .ok (url, extractProjectName e.repoUrl))

/-- One frame of the SSE progress stream (`src/unnamed/part_004`): a data
frame (each also carries a wall-clock timestamp, not modelled), or one of
the two closing sentinels. -/
inductive SSEFrame where
  | data (progress : Nat) (step message : String) (url : Option String)
  | complete
  | error
deriving DecidableEq

/-- The data frames the handler's `progressCallback` writes for a list of
run actions. -/
def framesOf (acts : List DAct) : List SSEFrame :=
  acts.filterMap fun a =>
    match a with
    | .frame p s m u => some (.data p s m u)
    | _ => none

/-- The full frame sequence the deploy-direct handler writes for one run:
the relayed bot frames, then on success the final 100% frame and the
`complete` sentinel, on failure the progress-0 error frame and the `error`
sentinel. -/
def deployDirectStream (e : DeployEnv) : List SSEFrame :=
  match deploy e with
  | (acts, .ok (url, _)) =>
    framesOf acts
      ++ [.data 100 "Deployment complete!" "✅ Your app is now live!" (some url),
          .complete]
  | (acts, .error m) =>
    framesOf acts
      ++ [.data 0 "Deployment failed" ("❌ Error: " ++ m) none, .error]

/-- Responses of `/api/deploy-direct` (`src/unnamed/part_004`). -/
inductive DeployDirectResult where
  | methodNotAllowed
  | unauthorized
  | stream (frames : List SSEFrame)
deriving DecidableEq

/-- The deploy-direct handler: method guard, then the `!session` guard
(any session object is truthy), then the SSE stream. -/
def deployDirectHandler (method : HttpMethod) (session : Option Session)
    (e : DeployEnv) : DeployDirectResult :=
  match method with
  | .POST =>
    match session with
    | none => .unauthorized
    | some _ => .stream (deployDirectStream e)
  | _ => .methodNotAllowed

/-- The `progress` values of the data frames of a stream, in order. -/
def progresses (fs : List SSEFrame) : List Nat :=
  fs.filterMap fun f =>
    match f with
    | .data p _ _ _ => some p
    | _ => none

/-- Whether a stream frame is a data frame (not a sentinel). -/
def isDataFrame : SSEFrame → Bool
  | .data _ _ _ _ => true
  | _ => false

/-! ## JSON values and `JSON.parse` (the platform collaborator used by
`ClaudeAnalyzer.parseAnalysisResponse`) -/

/-- A JSON value (JS numbers are modelled as rationals; the repository
never computes with them). -/
inductive Json where
  | null
  | bool (b : Bool)
  | num (q : ℚ)
  | str (s : String)
  | arr (xs : List Json)
  | obj (fields : List (String × Json))

/-- JSON whitespace. -/
def skipWs (cs : List Char) : List Char :=
  cs.dropWhile fun c => c = ' ' || c = '\t' || c = '\n' || c = '\r'

/-- The value of a hexadecimal digit. -/
def hexVal (c : Char) : Option Nat :=
  if '0' ≤ c ∧ c ≤ '9' then some (c.toNat - 48)
  else if 'a' ≤ c ∧ c ≤ 'f' then some (c.toNat - 87)
  else if 'A' ≤ c ∧ c ≤ 'F' then some (c.toNat - 55)
  else none

/-- Single-character JSON string escapes. -/
def escChar : Char → Option Char
  | '"' => some '"'
  | '\\' => some '\\'
  | '/' => some '/'
  | 'b' => some '\x08'
  | 'f' => some '\x0c'
  | 'n' => some '\n'
  | 'r' => some '\r'
  | 't' => some '\t'
  | _ => none

/-- Body of a JSON string after the opening quote: the decoded content and
the remaining input after the closing quote. -/
def strBody : Nat → List Char → Option (List Char × List Char)
  | 0, _ => none
  | _, [] => none
  | fuel+1, c :: rest =>
    if c = '"' then some ([], rest)
    else if c = '\\' then
      match rest with
      | [] => none
      | e :: rest2 =>
        if e = 'u' then
          match rest2 with
          | h1 :: h2 :: h3 :: h4 :: rest3 =>
            match hexVal h1, hexVal h2, hexVal h3, hexVal h4 with
            | some a, some b, some c', some d =>
              (strBody fuel rest3).map
                (fun r => (Char.ofNat (((a * 16 + b) * 16 + c') * 16 + d) :: r.1, r.2))
            | _, _, _, _ => none
          | _ => none
        else
          match escChar e with
          | some ch => (strBody fuel rest2).map (fun r => (ch :: r.1, r.2))
          | none => none
    else (strBody fuel rest).map (fun r => (c :: r.1, r.2))

/-- Decimal digits to a natural number. -/
def digitsToNat (ds : List Char) : Nat :=
  ds.foldl (fun n c => n * 10 + (c.toNat - 48)) 0

/-- A JSON number at the head of the input. -/
def parseNumber (cs : List Char) : Option (ℚ × List Char) :=
  let signStep : Bool × List Char :=
    match cs with
    | '-' :: r => (true, r)
    | _ => (false, cs)
  let neg := signStep.1
  let cs1 := signStep.2
  let ip := cs1.takeWhile Char.isDigit
  if ip.isEmpty then none
  else
    let cs2 := cs1.drop ip.length
    let fracStep : Option (List Char × List Char) :=
      match cs2 with
      | '.' :: r =>
        let f := r.takeWhile Char.isDigit
        if f.isEmpty then none else some (f, r.drop f.length)
      | _ => some ([], cs2)
    match fracStep with
    | none => none
    | some (fp, cs3) =>
      let expStep : Option (Bool × List Char × List Char) :=
        match cs3 with
        | 'e' :: r | 'E' :: r =>
          let s2 : Bool × List Char :=
            match r with
            | '+' :: rr => (false, rr)
            | '-' :: rr => (true, rr)
            | _ => (false, r)
          let ed := s2.2.takeWhile Char.isDigit
          if ed.isEmpty then none else some (s2.1, ed, s2.2.drop ed.length)
        | _ => some (false, [], cs3)
      match expStep with
      | none => none
      | some (esign, ed, cs4) =>
        let mant : ℚ :=
          (digitsToNat ip : ℚ) + (digitsToNat fp : ℚ) / ((10 : ℚ) ^ fp.length)
        let mant := if neg then -mant else mant
        let scale : ℚ := (10 : ℚ) ^ digitsToNat ed
        some (if esign then mant / scale else mant * scale, cs4)

mutual

/-- A JSON value at the head of the input (fuel-indexed). -/
def parseVal : Nat → List Char → Option (Json × List Char)
  | 0, _ => none
  | fuel+1, cs =>
    match skipWs cs with
    | [] => none
    | c :: rest =>
      if c = '\x7b' then
        match skipWs rest with
        | '\x7d' :: r => some (.obj [], r)
        | cs2 =>
          match parseMembers fuel cs2 with
          | some (fs, r) =>
            match skipWs r with
            | '\x7d' :: r3 => some (.obj fs, r3)
            | _ => none
          | none => none
      else if c = '[' then
        match skipWs rest with
        | ']' :: r => some (.arr [], r)
        | cs2 =>
          match parseElems fuel cs2 with
          | some (xs, r) =>
            match skipWs r with
            | ']' :: r3 => some (.arr xs, r3)
            | _ => none
          | none => none
      else if c = '"' then
        match strBody rest.length rest with
        | some (content, r) => some (.str ⟨content⟩, r)
        | none => none
      else if c = 't' then
        if "rue".data.isPrefixOf rest then some (.bool true, rest.drop 3) else none
      else if c = 'f' then
        if "alse".data.isPrefixOf rest then some (.bool false, rest.drop 4) else none
      else if c = 'n' then
        if "ull".data.isPrefixOf rest then some (.null, rest.drop 3) else none
      else
        match parseNumber (c :: rest) with
        | some (q, r) => some (.num q, r)
        | none => none

/-- The members of a JSON object, after the opening brace. -/
def parseMembers : Nat → List Char → Option (List (String × Json) × List Char)
  | 0, _ => none
  | fuel+1, cs =>
    match skipWs cs with
    | '"' :: rest =>
      match strBody rest.length rest with
      | some (key, r) =>
        match skipWs r with
        | ':' :: r3 =>
          match parseVal fuel r3 with
          | some (v, r4) =>
            match skipWs r4 with
            | ',' :: r6 =>
              match parseMembers fuel r6 with
              | some (fs, r7) => some ((⟨key⟩, v) :: fs, r7)
              | none => none
            | r5 => some ([(⟨key⟩, v)], r5)
          | none => none
        | _ => none
      | none => none
    | _ => none

/-- The elements of a JSON array, after the opening bracket. -/
def parseElems : Nat → List Char → Option (List Json × List Char)
  | 0, _ => none
  | fuel+1, cs =>
    match parseVal fuel cs with
    | some (v, r) =>
      match skipWs r with
      | ',' :: r2 =>
        match parseElems fuel r2 with
        | some (xs, r3) => some (v :: xs, r3)
        | none => none
      | r2 => some ([v], r2)
    | none => none

end

/-- `JSON.parse`: a complete JSON text (trailing whitespace allowed). -/
def Json.parse (cs : List Char) : Option Json :=
  match parseVal (cs.length + 1) cs with
  | some (j, rest) => if (skipWs rest).isEmpty then some j else none
  | none => none

/-- JS object field access (with duplicate keys the later one wins). -/
def Json.getField : Json → String → Option Json
  | .obj fs, k => fs.foldl (fun acc p => if p.1 = k then some p.2 else acc) none
  | _, _ => none

/-- JS truthiness of a possibly-`undefined` JSON value. -/
def jsTruthy : Option Json → Bool
  | none => false
  | some .null => false
  | some (.bool b) => b
  | some (.num q) => if q = 0 then false else true
  | some (.str s) => s ≠ ""
  | some (.arr _) => true
  | some (.obj _) => true

/-- JS `x || d` on a possibly-`undefined` JSON value. -/
def jsOr (v : Option Json) (d : Json) : Json :=
  if jsTruthy v then v.getD .null else d

/-! ## `ClaudeAnalyzer.parseAnalysisResponse` -/

/-- The record `parseAnalysisResponse` returns.  The source performs no
validation beyond the truthiness of `type` and `framework`, so the fields
are arbitrary JSON values; `buildCommand` is `none` when `undefined`. -/
structure ParsedAnalysis where
  type : Json
  framework : Json
  buildCommand : Option Json
  outputDir : Json
  dependencies : Json
  confidence : Json

/-- The suffix of the input starting at its first `{` (the start of the
leftmost match of the regex `\{[\s\S]*\}`; a match starting at a later
`{` exists only if one starts at the first). -/
def dropToLbrace : List Char → Option (List Char)
  | [] => none
  | c :: cs => if c = '\x7b' then some (c :: cs) else dropToLbrace cs

/-- The reversed input up to its first `}` (used to cut at the last `}`,
where the greedy `[\s\S]*` ends). -/
def dropToRbraceRev : List Char → Option (List Char)
  | [] => none
  | c :: cs => if c = '\x7d' then some (c :: cs) else dropToRbraceRev cs

/-- `response.match(/\{[\s\S]*\}/)`: the segment from the first `{` to the
last `}` at or after it, if any. -/
def extractJson (cs : List Char) : Option (List Char) :=
  match dropToLbrace cs with
  | none => none
  | some suff => (dropToRbraceRev suff.reverse).map List.reverse

/-- The message of the error `parseAnalysisResponse` rethrows: the catch
block converts every inner failure (no JSON found, `JSON.parse` failure,
missing `type`/`framework`) to this one hard error. -/
def invalidMsg : String := "Invalid response format from Claude API"

/-- `analysis.buildCommand === 'null' ? undefined : analysis.buildCommand`. -/
def bcField : Option Json → Option Json
  | some (Json.str s) => if s = "null" then none else some (Json.str s)
  | x => x

/-- `ClaudeAnalyzer.parseAnalysisResponse` on the raw character list of
the model's text response. -/
def parseAnalysisResponseL (cs : List Char) : Except String ParsedAnalysis :=
  match extractJson cs with
  | none => .error invalidMsg
  | some ex =>
    match Json.parse ex with
    | none => .error invalidMsg
    | some a =>
      if !(jsTruthy (a.getField "type")) || !(jsTruthy (a.getField "framework")) then
        .error invalidMsg
      else
        .ok ⟨(a.getField "type").getD .null,
             (a.getField "framework").getD .null,
             bcField (a.getField "buildCommand"),
             jsOr (a.getField "outputDir") (.str "dist"),
             jsOr (a.getField "dependencies") (.arr []),
             jsOr (a.getField "confidence") (.num (4/5))⟩

/-- `ClaudeAnalyzer.parseAnalysisResponse` on a string response. -/
def parseAnalysisResponse (s : String) : Except String ParsedAnalysis :=
  parseAnalysisResponseL s.data

/-- All five prerequisite checks of a run succeed. -/
def prereqsOk (e : DeployEnv) : Bool :=
  e.gitOk && e.nodeOk && e.npmOk && e.awsOk && e.credsOk

/-- The `progress` field of a stream frame, when it is a data frame. -/
def progressOf : SSEFrame → Option Nat
  | .data p _ _ _ => some p
  | _ => none

/-- The `deploymentUrl` field of a stream frame (sentinels carry none). -/
def urlOf : SSEFrame → Option String
  | .data _ _ _ u => u
  | _ => none

/-- A fixture environment in which every external invocation succeeds. -/
def envSuccess : DeployEnv :=
  ⟨"https://github.com/me/app.git", some "production", true, true, true, true,
   true, true, "", true, Except.ok ⟨[("next", "14.0.0")], [], none⟩, true, "",
   true, "", true, "", true, true, "", "SiteUrl: https://d111.cloudfront.net",
   true, true⟩

/-- A fixture environment in which the clone subprocess fails. -/
def envCloneFail : DeployEnv :=
  ⟨"https://github.com/me/app.git", some "production", true, true, true, true,
   true, false, "remote not found", true, Except.ok ⟨[], [], none⟩, true, "",
   true, "", true, "", true, true, "", "", true, true⟩

/-! # Theorems -/

/-- A substring of `w` is a substring of `w ++ t`. -/
theorem infix_data_left {m w : String} (t : String) (h : m.data <:+: w.data) :
    m.data <:+: (w ++ t).data := by
  rw [String.data_append]
  exact h.trans ⟨[], t.data, by simp⟩

/-- A substring of `w` is a substring of `s ++ w`. -/
theorem infix_data_right {m w : String} (s : String) (h : m.data <:+: w.data) :
    m.data <:+: (s ++ w).data := by
  rw [String.data_append]
  exact h.trans ⟨s.data, [], by simp⟩

/-- **C2.** For every `DeploymentConfig` — any of the three project types,
any framework — the generated `sst.config.ts` text contains the config's
`projectName` and `region` as literal substrings, and when the custom
domain is enabled and a domain is supplied, also that domain. -/
theorem C2_generated_config_contains_inputs (c : DeploymentConfig) :
    c.projectName.data <:+: (SSTGenerator.generateSSTConfig c).data ∧
    c.region.data <:+: (SSTGenerator.generateSSTConfig c).data ∧
    (∀ cd d, c.customDomain = some cd → cd.enabled = true → cd.domain = some d →
      d.data <:+: (SSTGenerator.generateSSTConfig c).data) := by
  have hdom : ∀ cd d, c.customDomain = some cd → cd.enabled = true →
      cd.domain = some d → d.data <:+: (SSTGenerator.domainSeg c).data := by
    intro cd d hcd hen hd
    have h1 : domainEnabled c = true := by simp [domainEnabled, hcd, hen]
    have h2 : SSTGenerator.domainValue c = d := by
      simp [SSTGenerator.domainValue, hcd, hd, interpOpt]
    rw [SSTGenerator.domainSeg, if_pos h1, h2]
    exact infix_data_left _ (infix_data_right _ List.infix_rfl)
  cases hpt : c.projectType with
  | SSR =>
    rw [SSTGenerator.generateSSTConfig, hpt]
    rw [SSTGenerator.generateSSRConfig]
    refine ⟨?_, ?_, ?_⟩
    · exact infix_data_left _ (infix_data_left _ (infix_data_left _
        (infix_data_left _ (infix_data_left _ (infix_data_left _
          (infix_data_right _ List.infix_rfl))))))
    · exact infix_data_left _ (infix_data_left _ (infix_data_left _
        (infix_data_left _ (infix_data_right _ List.infix_rfl))))
    · intro cd d hcd hen hd
      exact infix_data_left _ (infix_data_left _
        (infix_data_right _ (hdom cd d hcd hen hd)))
  | CSR =>
    rw [SSTGenerator.generateSSTConfig, hpt]
    rw [SSTGenerator.generateCSRConfig]
    refine ⟨?_, ?_, ?_⟩
    · exact infix_data_left _ (infix_data_left _ (infix_data_left _
        (infix_data_left _ (infix_data_left _ (infix_data_left _
          (infix_data_right _ List.infix_rfl))))))
    · exact infix_data_left _ (infix_data_left _ (infix_data_left _
        (infix_data_left _ (infix_data_right _ List.infix_rfl))))
    · intro cd d hcd hen hd
      exact infix_data_left _ (infix_data_left _
        (infix_data_right _ (hdom cd d hcd hen hd)))
  | STATIC =>
    rw [SSTGenerator.generateSSTConfig, hpt]
    rw [SSTGenerator.generateStaticConfig]
    refine ⟨?_, ?_, ?_⟩
    · exact infix_data_left _ (infix_data_left _ (infix_data_left _
        (infix_data_left _ (infix_data_left _ (infix_data_left _
          (infix_data_right _ List.infix_rfl))))))
    · exact infix_data_left _ (infix_data_left _ (infix_data_left _
        (infix_data_left _ (infix_data_right _ List.infix_rfl))))
    · intro cd d hcd hen hd
      exact infix_data_left _ (infix_data_left _
        (infix_data_right _ (hdom cd d hcd hen hd)))

/-- Witness for C2 at a concrete SSR config with an enabled custom domain:
the domain hypothesis chain is discharged by `rfl`. -/
theorem C2_witness :
    "ex.com".data <:+:
      (SSTGenerator.generateSSTConfig
        ⟨"myapp", "Next.js", .SSR, "eu-west-1", some ⟨true, some "ex.com"⟩,
         .worldwide, some "npm run build", ".next", "fast", "<100"⟩).data :=
  (C2_generated_config_contains_inputs
    ⟨"myapp", "Next.js", .SSR, "eu-west-1", some ⟨true, some "ex.com"⟩,
     .worldwide, some "npm run build", ".next", "fast", "<100"⟩).2.2
    ⟨true, some "ex.com"⟩ "ex.com" rfl rfl rfl

/-- **C3, counterexample.** `nuxt` is a server-rendering framework
dependency by this repository's own analyzer rule table, yet the deploy
bot's detector classifies a nuxt-only manifest as STATIC ("Static Site"),
not SSR: the claim is false for server-rendering frameworks other than
Next.js. -/
theorem C3_counterexample :
    "nuxt" ∈ ssrFrameworkDeps ∧
    (detectProjectType ⟨some ⟨[("nuxt", "^3.0.0")], [], none⟩, []⟩).type ≠
      ProjectType.SSR ∧
    (detectProjectType ⟨some ⟨[("nuxt", "^3.0.0")], [], none⟩, []⟩).framework =
      "Static Site" := by
  refine ⟨by simp [ssrFrameworkDeps], ?_, ?_⟩ <;>
    simp [detectProjectType, classify, hasDep, depLookup, jsLookup, strTruthy]

/-- **C3, amended.** For every repository manifest whose dependencies
(including devDependencies) contain a truthy `next` entry — the only
server-rendering framework in the bot's rule table — detection returns
SSR with framework Next.js, this rule taking priority over every
client-rendered or static rule that also matches the manifest. -/
theorem C3_next_has_priority (r : ClonedRepo) (p : PackageJson)
    (hp : r.packageJson = some p) (hnext : hasDep p "next" = true) :
    (detectProjectType r).type = ProjectType.SSR ∧
    (detectProjectType r).framework = "Next.js" := by
  simp [detectProjectType, classify, hp, hnext]

/-- Witness for C3 (amended) at a manifest that also matches the React,
Vue and Angular client-rendered rules: `next` still wins. -/
theorem C3_witness :
    (detectProjectType ⟨some ⟨[("next", "14.0.0"), ("react", "18"),
        ("react-dom", "18"), ("vue", "3"), ("@angular/core", "17")], [],
        some "next build"⟩, []⟩).type = ProjectType.SSR ∧
    (detectProjectType ⟨some ⟨[("next", "14.0.0"), ("react", "18"),
        ("react-dom", "18"), ("vue", "3"), ("@angular/core", "17")], [],
        some "next build"⟩, []⟩).framework = "Next.js" :=
  C3_next_has_priority _ _ rfl (by decide)

/-- **C4.** A cloned repository with no `package.json` manifest and an
`index.html` at its root is detected as STATIC with framework
"Static HTML", output directory ".", and no build command. -/
theorem C4_no_manifest_is_static_html (r : ClonedRepo)
    (h1 : r.packageJson = none) (h2 : "index.html" ∈ r.rootFiles) :
    detectProjectType r = ⟨.STATIC, "Static HTML", none, ".", []⟩ := by
  simp [detectProjectType, classify, h1]

/-- Witness for C4: the repository whose only root file is `index.html`. -/
theorem C4_witness :
    detectProjectType ⟨none, ["index.html"]⟩ =
      ⟨.STATIC, "Static HTML", none, ".", []⟩ :=
  C4_no_manifest_is_static_html ⟨none, ["index.html"]⟩ rfl (by simp)

/-- **C5.** Saving a configuration (POST) and then immediately listing
saved configurations (GET) with the same session returns a list that
includes the newly saved entry, whose embedded `DeploymentConfig` equals
the configuration that was saved. -/
theorem C5_save_then_list_roundtrip (s : Store) (sess : Session) (u : String)
    (b : SavedBody) (idStr iso : String)
    (hu : sessionEmail (some sess) = some u) :
    ∃ l, (savedConfigsHandler (some sess) .GET b idStr iso
            (savedConfigsHandler (some sess) .POST b idStr iso s).2).1 =
          ConfigsResult.list l ∧
        ∃ e ∈ l, e.config = b.config := by
  refine ⟨s u ++ [mkEntry b idStr iso], ?_, mkEntry b idStr iso, by simp, rfl⟩
  simp [savedConfigsHandler, hu]

/-- Witness for C5: a concrete session, store and body. -/
theorem C5_witness :
    ∃ l, (savedConfigsHandler (some ⟨none, some "a@b.c"⟩) .GET
            ⟨"cfg", "me/app", ⟨"app", "Next.js", .SSR, "us-east-1", none,
              .single, none, ".", "fast", "<100"⟩⟩ "1700000000000"
            "2023-11-14T22:13:20.000Z"
            (savedConfigsHandler (some ⟨none, some "a@b.c"⟩) .POST
              ⟨"cfg", "me/app", ⟨"app", "Next.js", .SSR, "us-east-1", none,
                .single, none, ".", "fast", "<100"⟩⟩ "1700000000000"
              "2023-11-14T22:13:20.000Z" (fun _ => [])).2).1 =
          ConfigsResult.list l ∧
        ∃ e ∈ l, e.config = ⟨"app", "Next.js", .SSR, "us-east-1", none,
          .single, none, ".", "fast", "<100"⟩ :=
  C5_save_then_list_roundtrip (fun _ => []) ⟨none, some "a@b.c"⟩ "a@b.c"
    ⟨"cfg", "me/app", ⟨"app", "Next.js", .SSR, "us-east-1", none,
      .single, none, ".", "fast", "<100"⟩⟩ "1700000000000"
    "2023-11-14T22:13:20.000Z" rfl

/-- **C10.** A POST to the saved-configurations endpoint by an
authenticated user appends exactly one entry (the one built from the body)
to that user's own saved list, and leaves the saved list of every other
user unchanged. -/
theorem C10_save_frame_effect (s : Store) (sess : Session) (u v : String)
    (b : SavedBody) (idStr iso : String)
    (hu : sessionEmail (some sess) = some u) (hv : v ≠ u) :
    (savedConfigsHandler (some sess) .POST b idStr iso s).2 u =
        s u ++ [mkEntry b idStr iso] ∧
    (savedConfigsHandler (some sess) .POST b idStr iso s).2 v = s v := by
  simp [savedConfigsHandler, hu, hv]

/-- Witness for C10 with two concrete distinct users. -/
theorem C10_witness :
    (savedConfigsHandler (some ⟨none, some "a@b.c"⟩) .POST
        ⟨"n", "r", ⟨"p", "f", .CSR, "us-east-1", none, .single, none, ".",
          "fast", "<100"⟩⟩ "7" "t" (fun _ => [])).2 "a@b.c" =
      [mkEntry ⟨"n", "r", ⟨"p", "f", .CSR, "us-east-1", none, .single, none,
        ".", "fast", "<100"⟩⟩ "7" "t"] ∧
    (savedConfigsHandler (some ⟨none, some "a@b.c"⟩) .POST
        ⟨"n", "r", ⟨"p", "f", .CSR, "us-east-1", none, .single, none, ".",
          "fast", "<100"⟩⟩ "7" "t" (fun _ => [])).2 "x@y.z" = [] :=
  C10_save_frame_effect (fun _ => []) ⟨none, some "a@b.c"⟩ "a@b.c" "x@y.z"
    ⟨"n", "r", ⟨"p", "f", .CSR, "us-east-1", none, .single, none, ".",
      "fast", "<100"⟩⟩ "7" "t" rfl (by decide)

/-- **C1, counterexample.** A POST to the configuration-archive endpoint
carrying no session at all is not answered with an unauthorized response:
the handler runs the generator and returns the archive files.  (The
deploy-script endpoint behaves the same way.) -/
theorem C1_counterexample :
    generateConfigHandler none .POST
        ⟨"demo", "Next.js", .SSR, "us-east-1", some ⟨false, none⟩, .single,
          none, ".", "fast", "<100"⟩ ≠
      GenerateConfigResult.unauthorized ∧
    generateConfigHandler none .POST
        ⟨"demo", "Next.js", .SSR, "us-east-1", some ⟨false, none⟩, .single,
          none, ".", "fast", "<100"⟩ =
      GenerateConfigResult.ok (SSTGenerator.generateConfig
        ⟨"demo", "Next.js", .SSR, "us-east-1", some ⟨false, none⟩, .single,
          none, ".", "fast", "<100"⟩) ∧
    generateDeployScriptHandler none .POST
        (some ⟨1, "demo", "me/demo", false, "https://github.com/me/demo",
          none, none⟩)
        ⟨"demo", "Next.js", .SSR, "us-east-1", some ⟨false, none⟩, .single,
          none, ".", "fast", "<100"⟩ =
      DeployScriptResult.ok := by
  refine ⟨?_, rfl, rfl⟩
  simp [generateConfigHandler]

/-- **C1, amended.** Requests without a valid session to the
repository-listing, analysis and saved-configuration endpoints receive an
unauthorized response and nothing else happens (in particular the saved
store is unchanged); a POST to the direct-deployment endpoint without a
session likewise receives unauthorized.  The configuration-archive and
deploy-script endpoints never check the session: a POST is processed
identically whether or not a session is present. -/
theorem C1_session_guards :
    (∀ sess fetched, sessionToken sess = none →
      repositoriesHandler sess fetched = .unauthorized) ∧
    (∀ sess analysis, sessionToken sess = none →
      analyzeHandler sess analysis = .unauthorized) ∧
    (∀ sess method b idStr iso s, sessionEmail sess = none →
      savedConfigsHandler sess method b idStr iso s = (.unauthorized, s)) ∧
    (∀ e, deployDirectHandler .POST none e = .unauthorized) ∧
    (∀ sess c, generateConfigHandler sess .POST c =
      .ok (SSTGenerator.generateConfig c)) ∧
    (∀ sess r c, generateDeployScriptHandler sess .POST (some r) c = .ok) := by
  refine ⟨?_, ?_, ?_, ?_, ?_, ?_⟩
  · intro sess fetched h
    simp [repositoriesHandler, h]
  · intro sess analysis h
    simp [analyzeHandler, h]
  · intro sess method b idStr iso s h
    simp [savedConfigsHandler, h]
  · intro e
    rfl
  · intro sess c
    rfl
  · intro sess r c
    rfl

/-- Witness for C1 (amended) at concrete sessionless requests. -/
theorem C1_witness :
    repositoriesHandler none (.ok []) = .unauthorized ∧
    analyzeHandler none (.error ()) = .unauthorized ∧
    savedConfigsHandler none .GET
        ⟨"n", "r", ⟨"p", "f", .CSR, "us-east-1", none, .single, none, ".",
          "fast", "<100"⟩⟩ "7" "t" (fun _ => []) =
      (.unauthorized, fun _ => []) :=
  ⟨C1_session_guards.1 none (.ok []) rfl,
   C1_session_guards.2.1 none (.error ()) rfl,
   C1_session_guards.2.2.1 none .GET
     ⟨"n", "r", ⟨"p", "f", .CSR, "us-east-1", none, .single, none, ".",
       "fast", "<100"⟩⟩ "7" "t" (fun _ => []) rfl⟩

/-- `dropToLbrace` skips a brace-free prefix. -/
theorem dropToLbrace_append (pre rest : List Char) (h : '\x7b' ∉ pre) :
    dropToLbrace (pre ++ rest) = dropToLbrace rest := by
  induction pre with
  | nil => rfl
  | cons c cs ih =>
    have hc : c ≠ '\x7b' := fun hc => h (hc ▸ List.mem_cons_self c cs)
    have hcs : '\x7b' ∉ cs := fun hm => h (List.mem_cons_of_mem c hm)
    simp [dropToLbrace, hc, ih hcs]

/-- `dropToLbrace` finds nothing in a brace-free input. -/
theorem dropToLbrace_none (cs : List Char) (h : '\x7b' ∉ cs) :
    dropToLbrace cs = none := by
  induction cs with
  | nil => rfl
  | cons c cs ih =>
    have hc : c ≠ '\x7b' := fun hc => h (hc ▸ List.mem_cons_self c cs)
    have hcs : '\x7b' ∉ cs := fun hm => h (List.mem_cons_of_mem c hm)
    simp [dropToLbrace, hc, ih hcs]

/-- `dropToRbraceRev` skips a brace-free prefix. -/
theorem dropToRbraceRev_append (pre rest : List Char) (h : '\x7d' ∉ pre) :
    dropToRbraceRev (pre ++ rest) = dropToRbraceRev rest := by
  induction pre with
  | nil => rfl
  | cons c cs ih =>
    have hc : c ≠ '\x7d' := fun hc => h (hc ▸ List.mem_cons_self c cs)
    have hcs : '\x7d' ∉ cs := fun hm => h (List.mem_cons_of_mem c hm)
    simp [dropToRbraceRev, hc, ih hcs]

/-- The regex extraction on a payload surrounded by harmless text: with no
`{` before the payload and no `}` after it, the extracted segment is
exactly the payload. -/
theorem extractJson_surround (pre payload post : List Char)
    (hpre : '\x7b' ∉ pre) (hpost : '\x7d' ∉ post)
    (hhead : payload.head? = some '\x7b')
    (hlast : payload.getLast? = some '\x7d') :
    extractJson (pre ++ payload ++ post) = some payload := by
  obtain ⟨p', hp⟩ : ∃ p', payload = '\x7b' :: p' := by
    cases payload with
    | nil => simp at hhead
    | cons c cs =>
      have hc : c = '\x7b' := by simpa using hhead
      exact ⟨cs, by rw [hc]⟩
  obtain ⟨q', hq⟩ : ∃ q', payload.reverse = '\x7d' :: q' := by
    cases hrev : payload.reverse with
    | nil =>
      have hnil : payload = [] := by simpa using congrArg List.reverse hrev
      simp [hnil] at hlast
    | cons c cs =>
      have hh : payload.reverse.head? = some '\x7d' := by
        rw [List.head?_reverse, hlast]
      rw [hrev] at hh
      have hc : c = '\x7d' := by simpa using hh
      exact ⟨cs, by rw [hc]⟩
  have e1 : dropToLbrace (pre ++ payload ++ post) = some (payload ++ post) := by
    rw [List.append_assoc, dropToLbrace_append pre _ hpre, hp]
    simp [dropToLbrace]
  have e2 : dropToRbraceRev (payload ++ post).reverse = some payload.reverse := by
    rw [List.reverse_append,
      dropToRbraceRev_append post.reverse payload.reverse
        (by simpa using hpost), hq]
    simp [dropToRbraceRev]
  simp only [extractJson, e1, e2, Option.map_some', List.reverse_reverse]

/-- **C8, counterexample.** A model response missing the required
classification fields `outputDir`, `dependencies` and `confidence` is not
treated as a hard error: the parser silently defaults them
(`'dist'`, `[]`, `0.8`). -/
theorem C8_counterexample :
    parseAnalysisResponse "\x7b\"type\": \"SSR\", \"framework\": \"Next.js\"\x7d" =
      Except.ok ⟨Json.str "SSR", Json.str "Next.js", none, Json.str "dist",
        Json.arr [], Json.num (4/5)⟩ := by
  rfl

/-- **C8, amended.** The parser extracts the JSON payload even when
brace-free extraneous text surrounds it (the result is the same as parsing
the payload alone), and throws the hard error `invalidMsg` whenever the
response contains no JSON object, whenever `JSON.parse` fails on the
extracted segment, and whenever the `type` or `framework` field of the
parsed object is missing or falsy; the remaining fields are defaulted, not
checked. -/
theorem C8_parse_tolerance_and_errors :
    (∀ pre payload post : List Char, '\x7b' ∉ pre → '\x7d' ∉ post →
      payload.head? = some '\x7b' → payload.getLast? = some '\x7d' →
      parseAnalysisResponseL (pre ++ payload ++ post) =
        parseAnalysisResponseL payload) ∧
    (∀ cs : List Char, '\x7b' ∉ cs →
      parseAnalysisResponseL cs = .error invalidMsg) ∧
    (∀ cs ex : List Char, extractJson cs = some ex → Json.parse ex = none →
      parseAnalysisResponseL cs = .error invalidMsg) ∧
    (∀ (cs ex : List Char) (a : Json), extractJson cs = some ex →
      Json.parse ex = some a →
      (jsTruthy (a.getField "type") = false ∨
        jsTruthy (a.getField "framework") = false) →
      parseAnalysisResponseL cs = .error invalidMsg) := by
  refine ⟨?_, ?_, ?_, ?_⟩
  · intro pre payload post hpre hpost hhead hlast
    have h1 := extractJson_surround pre payload post hpre hpost hhead hlast
    have h2 : extractJson payload = some payload := by
      simpa using extractJson_surround [] payload [] (by simp) (by simp)
        hhead hlast
    simp only [parseAnalysisResponseL, h1, h2]
  · intro cs h
    simp only [parseAnalysisResponseL, extractJson, dropToLbrace_none cs h]
  · intro cs ex hex hparse
    simp only [parseAnalysisResponseL, hex, hparse]
  · intro cs ex a hex hparse hfalsy
    simp only [parseAnalysisResponseL, hex, hparse]
    have hb : (!jsTruthy (a.getField "type") ||
        !jsTruthy (a.getField "framework")) = true := by
      rcases hfalsy with h | h <;> simp [h]
    rw [if_pos hb]

/-- Witness for C8 (amended): tolerance around a concrete payload, and the
three concrete failure modes. -/
theorem C8_witness :
    parseAnalysisResponseL ("Sure! ".data ++
        "\x7b\"type\":\"SSR\",\"framework\":\"Next.js\"\x7d".data ++
        " Done.".data) =
      parseAnalysisResponseL
        "\x7b\"type\":\"SSR\",\"framework\":\"Next.js\"\x7d".data ∧
    parseAnalysisResponseL "no json here".data = .error invalidMsg ∧
    parseAnalysisResponseL "\x7b not json \x7d".data = .error invalidMsg ∧
    parseAnalysisResponseL "\x7b\"framework\":\"Next.js\"\x7d".data =
      .error invalidMsg :=
  ⟨C8_parse_tolerance_and_errors.1 _ _ _ (by decide) (by decide) (by decide)
      (by decide),
   C8_parse_tolerance_and_errors.2.1 _ (by decide),
   C8_parse_tolerance_and_errors.2.2.1 _ "\x7b not json \x7d".data rfl rfl,
   C8_parse_tolerance_and_errors.2.2.2 _
     "\x7b\"framework\":\"Next.js\"\x7d".data
     (Json.obj [("framework", Json.str "Next.js")]) rfl rfl (Or.inl rfl)⟩

/-- The cleanup call event heads every cleanup action list. -/
theorem cleanup_has_call (e : DeployEnv) (b : Bool) :
    DAct.cleanupCall ∈ cleanupActs e b := by
  simp [cleanupActs]

/-- Cleanup never runs the clone subprocess. -/
theorem cleanup_no_clone (e : DeployEnv) (b : Bool) :
    DAct.runClone ∉ cleanupActs e b := by
  cases b <;> cases hde : e.dirExistsAtCleanup <;> cases hrm : e.rmOk <;>
    simp [cleanupActs, hde, hrm]

/-- Cleanup never runs the npm install subprocess. -/
theorem cleanup_no_npm (e : DeployEnv) (b : Bool) :
    DAct.runNpmInstall ∉ cleanupActs e b := by
  cases b <;> cases hde : e.dirExistsAtCleanup <;> cases hrm : e.rmOk <;>
    simp [cleanupActs, hde, hrm]

/-- Cleanup never runs the SST install subprocess. -/
theorem cleanup_no_sst (e : DeployEnv) (b : Bool) :
    DAct.runSstInstall ∉ cleanupActs e b := by
  cases b <;> cases hde : e.dirExistsAtCleanup <;> cases hrm : e.rmOk <;>
    simp [cleanupActs, hde, hrm]

/-- Cleanup never writes the config. -/
theorem cleanup_no_write (e : DeployEnv) (b : Bool) :
    DAct.writeConfig ∉ cleanupActs e b := by
  cases b <;> cases hde : e.dirExistsAtCleanup <;> cases hrm : e.rmOk <;>
    simp [cleanupActs, hde, hrm]

/-- Cleanup never runs the bootstrap subprocess. -/
theorem cleanup_no_bootstrap (e : DeployEnv) (b : Bool) :
    DAct.runBootstrap ∉ cleanupActs e b := by
  cases b <;> cases hde : e.dirExistsAtCleanup <;> cases hrm : e.rmOk <;>
    simp [cleanupActs, hde, hrm]

/-- Cleanup never runs the deploy subprocess. -/
theorem cleanup_no_deploy (e : DeployEnv) (b : Bool) :
    DAct.runDeploy ∉ cleanupActs e b := by
  cases b <;> cases hde : e.dirExistsAtCleanup <;> cases hrm : e.rmOk <;>
    simp [cleanupActs, hde, hrm]

/-- Cleanup never emits the final success frame. -/
theorem cleanup_no_success_frame (e : DeployEnv) (b : Bool) (u : Option String) :
    DAct.frame 100 "Deployment complete" "✅ Deployment successful!" u ∉
      cleanupActs e b := by
  cases b <;> cases hde : e.dirExistsAtCleanup <;> cases hrm : e.rmOk <;>
    simp [cleanupActs, hde, hrm]

set_option maxHeartbeats 1600000 in
/-- **C6.** For every successful direct-deployment run, the progress
values of the data frames written to the stream are non-decreasing, the
final progress value is 100, and the stream is terminated by the
completion sentinel (the last frame is `complete` and every earlier frame
is a data frame). -/
theorem C6_success_stream_monotone (e : DeployEnv) (h : (deploy e).2.isOk = true) :
    List.Chain' (· ≤ ·) (progresses (deployDirectStream e)) ∧
    (progresses (deployDirectStream e)).getLast? = some 100 ∧
    (deployDirectStream e).getLast? = some SSEFrame.complete ∧
    ∀ f ∈ (deployDirectStream e).dropLast, isDataFrame f = true := by
  obtain ⟨ru, stg, g, nd, np, aw, cr, cl, clm, pf, pp, ni, nim, si, sim, w,
    wm, bo, dep, dm, out, de, rm⟩ := e
  cases g
  · simp [deploy, checkPrerequisites, runChecks, Except.isOk, Except.toBool] at h
  cases nd
  · simp [deploy, checkPrerequisites, runChecks, Except.isOk, Except.toBool] at h
  cases np
  · simp [deploy, checkPrerequisites, runChecks, Except.isOk, Except.toBool] at h
  cases aw
  · simp [deploy, checkPrerequisites, runChecks, Except.isOk, Except.toBool] at h
  cases cr
  · simp [deploy, checkPrerequisites, runChecks, Except.isOk, Except.toBool] at h
  cases cl
  · simp [deploy, checkPrerequisites, runChecks, cloneRepository, Except.isOk, Except.toBool] at h
  cases pf
  · cases w
    · simp [deploy, checkPrerequisites, runChecks, cloneRepository,
        detectStep, installStep, addSSTConfigStep, Except.isOk, Except.toBool] at h
    cases dep
    · simp [deploy, checkPrerequisites, runChecks, cloneRepository,
        detectStep, installStep, addSSTConfigStep, deployToAWSStep, Except.isOk, Except.toBool] at h
    cases bo <;> cases de <;> cases rm <;>
      simp [deploy, checkPrerequisites, runChecks, cloneRepository,
        detectStep, installStep, addSSTConfigStep, deployToAWSStep,
        cleanupActs, failTail, deployDirectStream, framesOf, progresses,
        isDataFrame, strOrElse, List.dropLast]
  · cases pp with
    | error m =>
      simp [deploy, checkPrerequisites, runChecks, cloneRepository,
        detectStep, Except.isOk, Except.toBool] at h
    | ok p =>
      cases ni
      · simp [deploy, checkPrerequisites, runChecks, cloneRepository,
          detectStep, installStep, Except.isOk, Except.toBool] at h
      cases si
      · simp [deploy, checkPrerequisites, runChecks, cloneRepository,
          detectStep, installStep, Except.isOk, Except.toBool] at h
      cases w
      · simp [deploy, checkPrerequisites, runChecks, cloneRepository,
          detectStep, installStep, addSSTConfigStep, Except.isOk, Except.toBool] at h
      cases dep
      · simp [deploy, checkPrerequisites, runChecks, cloneRepository,
          detectStep, installStep, addSSTConfigStep, deployToAWSStep, Except.isOk, Except.toBool] at h
      cases bo <;> cases de <;> cases rm <;>
        simp [deploy, checkPrerequisites, runChecks, cloneRepository,
          detectStep, installStep, addSSTConfigStep, deployToAWSStep,
          cleanupActs, failTail, deployDirectStream, framesOf, progresses,
          isDataFrame, strOrElse, List.dropLast]

set_option maxHeartbeats 1600000 in
/-- **C7.** For every failing direct-deployment run, the stream is
terminated by the error sentinel, the final data frame written before the
sentinel carries progress 0 (and no URL), and no frame of the run carries
a `deploymentUrl` value. -/
theorem C7_failure_stream (e : DeployEnv) (h : (deploy e).2.isOk = false) :
    (deployDirectStream e).getLast? = some SSEFrame.error ∧
    ((deployDirectStream e).dropLast.getLast?).bind progressOf = some 0 ∧
    ∀ f ∈ deployDirectStream e, urlOf f = none := by
  obtain ⟨ru, stg, g, nd, np, aw, cr, cl, clm, pf, pp, ni, nim, si, sim, w,
    wm, bo, dep, dm, out, de, rm⟩ := e
  cases g
  · simp [deploy, checkPrerequisites, runChecks, cloneRepository, detectStep,
      installStep, addSSTConfigStep, deployToAWSStep, cleanupActs, failTail,
      deployDirectStream, framesOf, progressOf, urlOf, strOrElse,
      List.dropLast]
  cases nd
  · simp [deploy, checkPrerequisites, runChecks, cloneRepository, detectStep,
      installStep, addSSTConfigStep, deployToAWSStep, cleanupActs, failTail,
      deployDirectStream, framesOf, progressOf, urlOf, strOrElse,
      List.dropLast]
  cases np
  · simp [deploy, checkPrerequisites, runChecks, cloneRepository, detectStep,
      installStep, addSSTConfigStep, deployToAWSStep, cleanupActs, failTail,
      deployDirectStream, framesOf, progressOf, urlOf, strOrElse,
      List.dropLast]
  cases aw
  · simp [deploy, checkPrerequisites, runChecks, cloneRepository, detectStep,
      installStep, addSSTConfigStep, deployToAWSStep, cleanupActs, failTail,
      deployDirectStream, framesOf, progressOf, urlOf, strOrElse,
      List.dropLast]
  cases cr
  · simp [deploy, checkPrerequisites, runChecks, cloneRepository, detectStep,
      installStep, addSSTConfigStep, deployToAWSStep, cleanupActs, failTail,
      deployDirectStream, framesOf, progressOf, urlOf, strOrElse,
      List.dropLast]
  cases cl
  · cases de <;> cases rm <;>
      simp [deploy, checkPrerequisites, runChecks, cloneRepository,
        detectStep, installStep, addSSTConfigStep, deployToAWSStep,
        cleanupActs, failTail, deployDirectStream, framesOf, progressOf,
        urlOf, strOrElse, List.dropLast]
  cases pf
  · cases w
    · cases de <;> cases rm <;>
        simp [deploy, checkPrerequisites, runChecks, cloneRepository,
          detectStep, installStep, addSSTConfigStep, deployToAWSStep,
          cleanupActs, failTail, deployDirectStream, framesOf, progressOf,
          urlOf, strOrElse, List.dropLast]
    cases dep
    · cases bo <;> cases de <;> cases rm <;>
        simp [deploy, checkPrerequisites, runChecks, cloneRepository,
          detectStep, installStep, addSSTConfigStep, deployToAWSStep,
          cleanupActs, failTail, deployDirectStream, framesOf, progressOf,
          urlOf, strOrElse, List.dropLast]
    · simp [deploy, checkPrerequisites, runChecks, cloneRepository,
        detectStep, installStep, addSSTConfigStep, deployToAWSStep,
        Except.isOk, Except.toBool] at h
  · cases pp with
    | error m =>
      cases de <;> cases rm <;>
        simp [deploy, checkPrerequisites, runChecks, cloneRepository,
          detectStep, installStep, addSSTConfigStep, deployToAWSStep,
          cleanupActs, failTail, deployDirectStream, framesOf, progressOf,
          urlOf, strOrElse, List.dropLast]
    | ok p =>
      cases ni
      · cases de <;> cases rm <;>
          simp [deploy, checkPrerequisites, runChecks, cloneRepository,
            detectStep, installStep, addSSTConfigStep, deployToAWSStep,
            cleanupActs, failTail, deployDirectStream, framesOf, progressOf,
            urlOf, strOrElse, List.dropLast]
      cases si
      · cases de <;> cases rm <;>
          simp [deploy, checkPrerequisites, runChecks, cloneRepository,
            detectStep, installStep, addSSTConfigStep, deployToAWSStep,
            cleanupActs, failTail, deployDirectStream, framesOf, progressOf,
            urlOf, strOrElse, List.dropLast]
      cases w
      · cases de <;> cases rm <;>
          simp [deploy, checkPrerequisites, runChecks, cloneRepository,
            detectStep, installStep, addSSTConfigStep, deployToAWSStep,
            cleanupActs, failTail, deployDirectStream, framesOf, progressOf,
            urlOf, strOrElse, List.dropLast]
      cases dep
      · cases bo <;> cases de <;> cases rm <;>
          simp [deploy, checkPrerequisites, runChecks, cloneRepository,
            detectStep, installStep, addSSTConfigStep, deployToAWSStep,
            cleanupActs, failTail, deployDirectStream, framesOf, progressOf,
            urlOf, strOrElse, List.dropLast]
      · simp [deploy, checkPrerequisites, runChecks, cloneRepository,
          detectStep, installStep, addSSTConfigStep, deployToAWSStep,
          Except.isOk, Except.toBool] at h

set_option maxHeartbeats 1600000 in
/-- **C9.** Any failing step aborts the whole run: the error is propagated
to the caller (the run's result is that error, i.e. it is rethrown after
the listed actions), the catch block's failure frame is emitted and the
cleanup call — the best-effort deletion attempt — happens before the
rethrow, and the subprocess/config-write actions of the steps after the
failing one never appear in the run's action list. -/
theorem C9_failing_step_aborts (e : DeployEnv) :
    ((deploy e).2.isOk = false → ∃ m, (deploy e).2 = Except.error m ∧
      DAct.frame 0 "Deployment failed" ("❌ " ++ m) none ∈ (deploy e).1) ∧
    DAct.cleanupCall ∈ (deploy e).1 ∧
    (prereqsOk e = false →
      DAct.runClone ∉ (deploy e).1 ∧ DAct.runNpmInstall ∉ (deploy e).1 ∧
      DAct.runSstInstall ∉ (deploy e).1 ∧ DAct.writeConfig ∉ (deploy e).1 ∧
      DAct.runBootstrap ∉ (deploy e).1 ∧ DAct.runDeploy ∉ (deploy e).1 ∧
      (deploy e).2.isOk = false) ∧
    (e.cloneOk = false →
      DAct.runNpmInstall ∉ (deploy e).1 ∧ DAct.runSstInstall ∉ (deploy e).1 ∧
      DAct.writeConfig ∉ (deploy e).1 ∧ DAct.runBootstrap ∉ (deploy e).1 ∧
      DAct.runDeploy ∉ (deploy e).1 ∧ (deploy e).2.isOk = false) ∧
    (e.pkgFileExists = true → e.pkgParse.isOk = false →
      DAct.runNpmInstall ∉ (deploy e).1 ∧ DAct.runSstInstall ∉ (deploy e).1 ∧
      DAct.writeConfig ∉ (deploy e).1 ∧ DAct.runBootstrap ∉ (deploy e).1 ∧
      DAct.runDeploy ∉ (deploy e).1 ∧ (deploy e).2.isOk = false) ∧
    (e.pkgFileExists = true → e.npmInstallOk = false →
      DAct.runSstInstall ∉ (deploy e).1 ∧ DAct.writeConfig ∉ (deploy e).1 ∧
      DAct.runBootstrap ∉ (deploy e).1 ∧ DAct.runDeploy ∉ (deploy e).1 ∧
      (deploy e).2.isOk = false) ∧
    (e.pkgFileExists = true → e.sstInstallOk = false →
      DAct.writeConfig ∉ (deploy e).1 ∧ DAct.runBootstrap ∉ (deploy e).1 ∧
      DAct.runDeploy ∉ (deploy e).1 ∧ (deploy e).2.isOk = false) ∧
    (e.writeOk = false →
      DAct.runBootstrap ∉ (deploy e).1 ∧ DAct.runDeploy ∉ (deploy e).1 ∧
      (deploy e).2.isOk = false) ∧
    (e.deployOk = false →
      (∀ u, DAct.frame 100 "Deployment complete" "✅ Deployment successful!" u ∉
        (deploy e).1) ∧
      (deploy e).2.isOk = false) := by
  obtain ⟨ru, stg, g, nd, np, aw, cr, cl, clm, pf, pp, ni, nim, si, sim, w,
    wm, bo, dep, dm, out, de, rm⟩ := e
  refine ⟨?_, ?_, ?_, ?_, ?_, ?_, ?_, ?_, ?_⟩
  · -- error propagation with failure frame and cleanup call in trace
    intro h
    cases g
    · simp_all [deploy, checkPrerequisites, runChecks, cloneRepository,
        detectStep, installStep, addSSTConfigStep, deployToAWSStep, failTail,
        Except.isOk, Except.toBool]
    cases nd
    · simp_all [deploy, checkPrerequisites, runChecks, cloneRepository,
        detectStep, installStep, addSSTConfigStep, deployToAWSStep, failTail,
        Except.isOk, Except.toBool]
    cases np
    · simp_all [deploy, checkPrerequisites, runChecks, cloneRepository,
        detectStep, installStep, addSSTConfigStep, deployToAWSStep, failTail,
        Except.isOk, Except.toBool]
    cases aw
    · simp_all [deploy, checkPrerequisites, runChecks, cloneRepository,
        detectStep, installStep, addSSTConfigStep, deployToAWSStep, failTail,
        Except.isOk, Except.toBool]
    cases cr
    · simp_all [deploy, checkPrerequisites, runChecks, cloneRepository,
        detectStep, installStep, addSSTConfigStep, deployToAWSStep, failTail,
        Except.isOk, Except.toBool]
    cases cl
    · simp_all [deploy, checkPrerequisites, runChecks, cloneRepository,
        detectStep, installStep, addSSTConfigStep, deployToAWSStep, failTail,
        Except.isOk, Except.toBool]
    cases pf
    · cases w
      · simp_all [deploy, checkPrerequisites, runChecks, cloneRepository,
          detectStep, installStep, addSSTConfigStep, deployToAWSStep,
          failTail, Except.isOk, Except.toBool]
      cases dep
      · simp_all [deploy, checkPrerequisites, runChecks, cloneRepository,
          detectStep, installStep, addSSTConfigStep, deployToAWSStep,
          failTail, Except.isOk, Except.toBool]
      · simp_all [deploy, checkPrerequisites, runChecks, cloneRepository,
          detectStep, installStep, addSSTConfigStep, deployToAWSStep,
          failTail, Except.isOk, Except.toBool]
    · cases pp with
      | error m =>
        simp_all [deploy, checkPrerequisites, runChecks, cloneRepository,
          detectStep, installStep, addSSTConfigStep, deployToAWSStep,
          failTail, Except.isOk, Except.toBool]
      | ok p =>
        cases ni
        · simp_all [deploy, checkPrerequisites, runChecks, cloneRepository,
            detectStep, installStep, addSSTConfigStep, deployToAWSStep,
            failTail, Except.isOk, Except.toBool]
        cases si
        · simp_all [deploy, checkPrerequisites, runChecks, cloneRepository,
            detectStep, installStep, addSSTConfigStep, deployToAWSStep,
            failTail, Except.isOk, Except.toBool]
        cases w
        · simp_all [deploy, checkPrerequisites, runChecks, cloneRepository,
            detectStep, installStep, addSSTConfigStep, deployToAWSStep,
            failTail, Except.isOk, Except.toBool]
        cases dep
        · simp_all [deploy, checkPrerequisites, runChecks, cloneRepository,
            detectStep, installStep, addSSTConfigStep, deployToAWSStep,
            failTail, Except.isOk, Except.toBool]
        · simp_all [deploy, checkPrerequisites, runChecks, cloneRepository,
            detectStep, installStep, addSSTConfigStep, deployToAWSStep,
            failTail, Except.isOk, Except.toBool]
  · -- the cleanup call is always part of the trace
    cases g
    · simp [deploy, checkPrerequisites, runChecks, failTail, cleanup_has_call]
    cases nd
    · simp [deploy, checkPrerequisites, runChecks, failTail, cleanup_has_call]
    cases np
    · simp [deploy, checkPrerequisites, runChecks, failTail, cleanup_has_call]
    cases aw
    · simp [deploy, checkPrerequisites, runChecks, failTail, cleanup_has_call]
    cases cr
    · simp [deploy, checkPrerequisites, runChecks, failTail, cleanup_has_call]
    cases cl
    · simp [deploy, checkPrerequisites, runChecks, cloneRepository, failTail,
        cleanup_has_call]
    cases pf
    · cases w
      · simp [deploy, checkPrerequisites, runChecks, cloneRepository,
          detectStep, installStep, addSSTConfigStep, failTail,
          cleanup_has_call]
      cases dep
      · simp [deploy, checkPrerequisites, runChecks, cloneRepository,
          detectStep, installStep, addSSTConfigStep, deployToAWSStep,
          failTail, cleanup_has_call]
      · simp [deploy, checkPrerequisites, runChecks, cloneRepository,
          detectStep, installStep, addSSTConfigStep, deployToAWSStep,
          failTail, cleanup_has_call]
    · cases pp with
      | error m =>
        simp [deploy, checkPrerequisites, runChecks, cloneRepository,
          detectStep, failTail, cleanup_has_call]
      | ok p =>
        cases ni
        · simp [deploy, checkPrerequisites, runChecks, cloneRepository,
            detectStep, installStep, failTail, cleanup_has_call]
        cases si
        · simp [deploy, checkPrerequisites, runChecks, cloneRepository,
            detectStep, installStep, failTail, cleanup_has_call]
        cases w
        · simp [deploy, checkPrerequisites, runChecks, cloneRepository,
            detectStep, installStep, addSSTConfigStep, failTail,
            cleanup_has_call]
        cases dep
        · simp [deploy, checkPrerequisites, runChecks, cloneRepository,
            detectStep, installStep, addSSTConfigStep, deployToAWSStep,
            failTail, cleanup_has_call]
        · simp [deploy, checkPrerequisites, runChecks, cloneRepository,
            detectStep, installStep, addSSTConfigStep, deployToAWSStep,
            failTail, cleanup_has_call]
  · -- prerequisite failure aborts before any subprocess step
    intro h2
    simp only [prereqsOk] at h2
    cases g
    · simp [deploy, checkPrerequisites, runChecks, failTail, cleanup_no_clone,
        cleanup_no_npm, cleanup_no_sst, cleanup_no_write,
        cleanup_no_bootstrap, cleanup_no_deploy, Except.isOk, Except.toBool]
    cases nd
    · simp [deploy, checkPrerequisites, runChecks, failTail, cleanup_no_clone,
        cleanup_no_npm, cleanup_no_sst, cleanup_no_write,
        cleanup_no_bootstrap, cleanup_no_deploy, Except.isOk, Except.toBool]
    cases np
    · simp [deploy, checkPrerequisites, runChecks, failTail, cleanup_no_clone,
        cleanup_no_npm, cleanup_no_sst, cleanup_no_write,
        cleanup_no_bootstrap, cleanup_no_deploy, Except.isOk, Except.toBool]
    cases aw
    · simp [deploy, checkPrerequisites, runChecks, failTail, cleanup_no_clone,
        cleanup_no_npm, cleanup_no_sst, cleanup_no_write,
        cleanup_no_bootstrap, cleanup_no_deploy, Except.isOk, Except.toBool]
    cases cr
    · simp [deploy, checkPrerequisites, runChecks, failTail, cleanup_no_clone,
        cleanup_no_npm, cleanup_no_sst, cleanup_no_write,
        cleanup_no_bootstrap, cleanup_no_deploy, Except.isOk, Except.toBool]
    · simp at h2
  · -- clone failure aborts before install/config/deploy
    intro h2
    simp only at h2
    subst h2
    cases g
    · simp [deploy, checkPrerequisites, runChecks, failTail, cleanup_no_npm,
        cleanup_no_sst, cleanup_no_write, cleanup_no_bootstrap,
        cleanup_no_deploy, Except.isOk, Except.toBool]
    cases nd
    · simp [deploy, checkPrerequisites, runChecks, failTail, cleanup_no_npm,
        cleanup_no_sst, cleanup_no_write, cleanup_no_bootstrap,
        cleanup_no_deploy, Except.isOk, Except.toBool]
    cases np
    · simp [deploy, checkPrerequisites, runChecks, failTail, cleanup_no_npm,
        cleanup_no_sst, cleanup_no_write, cleanup_no_bootstrap,
        cleanup_no_deploy, Except.isOk, Except.toBool]
    cases aw
    · simp [deploy, checkPrerequisites, runChecks, failTail, cleanup_no_npm,
        cleanup_no_sst, cleanup_no_write, cleanup_no_bootstrap,
        cleanup_no_deploy, Except.isOk, Except.toBool]
    cases cr
    · simp [deploy, checkPrerequisites, runChecks, failTail, cleanup_no_npm,
        cleanup_no_sst, cleanup_no_write, cleanup_no_bootstrap,
        cleanup_no_deploy, Except.isOk, Except.toBool]
    · simp [deploy, checkPrerequisites, runChecks, cloneRepository, failTail,
        cleanup_no_npm, cleanup_no_sst, cleanup_no_write,
        cleanup_no_bootstrap, cleanup_no_deploy, Except.isOk, Except.toBool]
  · -- manifest parse failure aborts before install/config/deploy
    intro hpf hpp
    simp only at hpf
    subst hpf
    cases g
    · simp [deploy, checkPrerequisites, runChecks, failTail, cleanup_no_npm,
        cleanup_no_sst, cleanup_no_write, cleanup_no_bootstrap,
        cleanup_no_deploy, Except.isOk, Except.toBool]
    cases nd
    · simp [deploy, checkPrerequisites, runChecks, failTail, cleanup_no_npm,
        cleanup_no_sst, cleanup_no_write, cleanup_no_bootstrap,
        cleanup_no_deploy, Except.isOk, Except.toBool]
    cases np
    · simp [deploy, checkPrerequisites, runChecks, failTail, cleanup_no_npm,
        cleanup_no_sst, cleanup_no_write, cleanup_no_bootstrap,
        cleanup_no_deploy, Except.isOk, Except.toBool]
    cases aw
    · simp [deploy, checkPrerequisites, runChecks, failTail, cleanup_no_npm,
        cleanup_no_sst, cleanup_no_write, cleanup_no_bootstrap,
        cleanup_no_deploy, Except.isOk, Except.toBool]
    cases cr
    · simp [deploy, checkPrerequisites, runChecks, failTail, cleanup_no_npm,
        cleanup_no_sst, cleanup_no_write, cleanup_no_bootstrap,
        cleanup_no_deploy, Except.isOk, Except.toBool]
    cases cl
    · simp [deploy, checkPrerequisites, runChecks, cloneRepository, failTail,
        cleanup_no_npm, cleanup_no_sst, cleanup_no_write,
        cleanup_no_bootstrap, cleanup_no_deploy, Except.isOk, Except.toBool]
    cases pp with
    | error m =>
      simp [deploy, checkPrerequisites, runChecks, cloneRepository,
        detectStep, failTail, cleanup_no_npm, cleanup_no_sst,
        cleanup_no_write, cleanup_no_bootstrap, cleanup_no_deploy,
        Except.isOk, Except.toBool]
    | ok p =>
      simp [Except.isOk, Except.toBool] at hpp
  · -- npm install failure aborts before the SST install and later steps
    intro hpf hni
    simp only at hpf hni
    subst hpf
    subst hni
    cases g
    · simp [deploy, checkPrerequisites, runChecks, failTail, cleanup_no_sst,
        cleanup_no_write, cleanup_no_bootstrap, cleanup_no_deploy,
        Except.isOk, Except.toBool]
    cases nd
    · simp [deploy, checkPrerequisites, runChecks, failTail, cleanup_no_sst,
        cleanup_no_write, cleanup_no_bootstrap, cleanup_no_deploy,
        Except.isOk, Except.toBool]
    cases np
    · simp [deploy, checkPrerequisites, runChecks, failTail, cleanup_no_sst,
        cleanup_no_write, cleanup_no_bootstrap, cleanup_no_deploy,
        Except.isOk, Except.toBool]
    cases aw
    · simp [deploy, checkPrerequisites, runChecks, failTail, cleanup_no_sst,
        cleanup_no_write, cleanup_no_bootstrap, cleanup_no_deploy,
        Except.isOk, Except.toBool]
    cases cr
    · simp [deploy, checkPrerequisites, runChecks, failTail, cleanup_no_sst,
        cleanup_no_write, cleanup_no_bootstrap, cleanup_no_deploy,
        Except.isOk, Except.toBool]
    cases cl
    · simp [deploy, checkPrerequisites, runChecks, cloneRepository, failTail,
        cleanup_no_sst, cleanup_no_write, cleanup_no_bootstrap,
        cleanup_no_deploy, Except.isOk, Except.toBool]
    cases pp with
    | error m =>
      simp [deploy, checkPrerequisites, runChecks, cloneRepository,
        detectStep, failTail, cleanup_no_sst, cleanup_no_write,
        cleanup_no_bootstrap, cleanup_no_deploy, Except.isOk, Except.toBool]
    | ok p =>
      simp [deploy, checkPrerequisites, runChecks, cloneRepository,
        detectStep, installStep, failTail, cleanup_no_sst, cleanup_no_write,
        cleanup_no_bootstrap, cleanup_no_deploy, Except.isOk, Except.toBool]
  · -- SST install failure aborts before config write and deploy
    intro hpf hsi
    simp only at hpf hsi
    subst hpf
    subst hsi
    cases g
    · simp [deploy, checkPrerequisites, runChecks, failTail, cleanup_no_write,
        cleanup_no_bootstrap, cleanup_no_deploy, Except.isOk, Except.toBool]
    cases nd
    · simp [deploy, checkPrerequisites, runChecks, failTail, cleanup_no_write,
        cleanup_no_bootstrap, cleanup_no_deploy, Except.isOk, Except.toBool]
    cases np
    · simp [deploy, checkPrerequisites, runChecks, failTail, cleanup_no_write,
        cleanup_no_bootstrap, cleanup_no_deploy, Except.isOk, Except.toBool]
    cases aw
    · simp [deploy, checkPrerequisites, runChecks, failTail, cleanup_no_write,
        cleanup_no_bootstrap, cleanup_no_deploy, Except.isOk, Except.toBool]
    cases cr
    · simp [deploy, checkPrerequisites, runChecks, failTail, cleanup_no_write,
        cleanup_no_bootstrap, cleanup_no_deploy, Except.isOk, Except.toBool]
    cases cl
    · simp [deploy, checkPrerequisites, runChecks, cloneRepository, failTail,
        cleanup_no_write, cleanup_no_bootstrap, cleanup_no_deploy,
        Except.isOk, Except.toBool]
    cases pp with
    | error m =>
      simp [deploy, checkPrerequisites, runChecks, cloneRepository,
        detectStep, failTail, cleanup_no_write, cleanup_no_bootstrap,
        cleanup_no_deploy, Except.isOk, Except.toBool]
    | ok p =>
      cases ni
      · simp [deploy, checkPrerequisites, runChecks, cloneRepository,
          detectStep, installStep, failTail, cleanup_no_write,
          cleanup_no_bootstrap, cleanup_no_deploy, Except.isOk,
          Except.toBool]
      · simp [deploy, checkPrerequisites, runChecks, cloneRepository,
          detectStep, installStep, failTail, cleanup_no_write,
          cleanup_no_bootstrap, cleanup_no_deploy, Except.isOk,
          Except.toBool]
  · -- config-write failure aborts before bootstrap and deploy
    intro hw
    simp only at hw
    subst hw
    cases g
    · simp [deploy, checkPrerequisites, runChecks, failTail,
        cleanup_no_bootstrap, cleanup_no_deploy, Except.isOk, Except.toBool]
    cases nd
    · simp [deploy, checkPrerequisites, runChecks, failTail,
        cleanup_no_bootstrap, cleanup_no_deploy, Except.isOk, Except.toBool]
    cases np
    · simp [deploy, checkPrerequisites, runChecks, failTail,
        cleanup_no_bootstrap, cleanup_no_deploy, Except.isOk, Except.toBool]
    cases aw
    · simp [deploy, checkPrerequisites, runChecks, failTail,
        cleanup_no_bootstrap, cleanup_no_deploy, Except.isOk, Except.toBool]
    cases cr
    · simp [deploy, checkPrerequisites, runChecks, failTail,
        cleanup_no_bootstrap, cleanup_no_deploy, Except.isOk, Except.toBool]
    cases cl
    · simp [deploy, checkPrerequisites, runChecks, cloneRepository, failTail,
        cleanup_no_bootstrap, cleanup_no_deploy, Except.isOk, Except.toBool]
    cases pf
    · simp [deploy, checkPrerequisites, runChecks, cloneRepository,
        detectStep, installStep, addSSTConfigStep, failTail,
        cleanup_no_bootstrap, cleanup_no_deploy, Except.isOk, Except.toBool]
    · cases pp with
      | error m =>
        simp [deploy, checkPrerequisites, runChecks, cloneRepository,
          detectStep, failTail, cleanup_no_bootstrap, cleanup_no_deploy,
          Except.isOk, Except.toBool]
      | ok p =>
        cases ni
        · simp [deploy, checkPrerequisites, runChecks, cloneRepository,
            detectStep, installStep, failTail, cleanup_no_bootstrap,
            cleanup_no_deploy, Except.isOk, Except.toBool]
        cases si
        · simp [deploy, checkPrerequisites, runChecks, cloneRepository,
            detectStep, installStep, failTail, cleanup_no_bootstrap,
            cleanup_no_deploy, Except.isOk, Except.toBool]
        · simp [deploy, checkPrerequisites, runChecks, cloneRepository,
            detectStep, installStep, addSSTConfigStep, failTail,
            cleanup_no_bootstrap, cleanup_no_deploy, Except.isOk,
            Except.toBool]
  · -- deploy-command failure: no success frame, error result
    intro hdep
    simp only at hdep
    subst hdep
    cases g
    · simp [deploy, checkPrerequisites, runChecks, failTail,
        cleanup_no_success_frame, Except.isOk, Except.toBool]
    cases nd
    · simp [deploy, checkPrerequisites, runChecks, failTail,
        cleanup_no_success_frame, Except.isOk, Except.toBool]
    cases np
    · simp [deploy, checkPrerequisites, runChecks, failTail,
        cleanup_no_success_frame, Except.isOk, Except.toBool]
    cases aw
    · simp [deploy, checkPrerequisites, runChecks, failTail,
        cleanup_no_success_frame, Except.isOk, Except.toBool]
    cases cr
    · simp [deploy, checkPrerequisites, runChecks, failTail,
        cleanup_no_success_frame, Except.isOk, Except.toBool]
    cases cl
    · simp [deploy, checkPrerequisites, runChecks, cloneRepository, failTail,
        cleanup_no_success_frame, Except.isOk, Except.toBool]
    cases pf
    · cases w
      · simp [deploy, checkPrerequisites, runChecks, cloneRepository,
          detectStep, installStep, addSSTConfigStep, failTail,
          cleanup_no_success_frame, Except.isOk, Except.toBool]
      · cases bo <;>
          simp [deploy, checkPrerequisites, runChecks, cloneRepository,
            detectStep, installStep, addSSTConfigStep, deployToAWSStep,
            failTail, cleanup_no_success_frame, Except.isOk, Except.toBool]
    · cases pp with
      | error m =>
        simp [deploy, checkPrerequisites, runChecks, cloneRepository,
          detectStep, failTail, cleanup_no_success_frame, Except.isOk,
          Except.toBool]
      | ok p =>
        cases ni
        · simp [deploy, checkPrerequisites, runChecks, cloneRepository,
            detectStep, installStep, failTail, cleanup_no_success_frame,
            Except.isOk, Except.toBool]
        cases si
        · simp [deploy, checkPrerequisites, runChecks, cloneRepository,
            detectStep, installStep, failTail, cleanup_no_success_frame,
            Except.isOk, Except.toBool]
        cases w
        · simp [deploy, checkPrerequisites, runChecks, cloneRepository,
            detectStep, installStep, addSSTConfigStep, failTail,
            cleanup_no_success_frame, Except.isOk, Except.toBool]
        · cases bo <;>
            simp [deploy, checkPrerequisites, runChecks, cloneRepository,
              detectStep, installStep, addSSTConfigStep, deployToAWSStep,
              failTail, cleanup_no_success_frame, Except.isOk, Except.toBool]

/-- Witness for C6 at the all-success fixture environment. -/
theorem C6_witness :
    List.Chain' (· ≤ ·) (progresses (deployDirectStream envSuccess)) ∧
    (progresses (deployDirectStream envSuccess)).getLast? = some 100 ∧
    (deployDirectStream envSuccess).getLast? = some SSEFrame.complete ∧
    ∀ f ∈ (deployDirectStream envSuccess).dropLast, isDataFrame f = true :=
  C6_success_stream_monotone envSuccess (by rfl)

/-- Witness for C7 at the clone-failure fixture environment. -/
theorem C7_witness :
    (deployDirectStream envCloneFail).getLast? = some SSEFrame.error ∧
    ((deployDirectStream envCloneFail).dropLast.getLast?).bind progressOf =
      some 0 ∧
    ∀ f ∈ deployDirectStream envCloneFail, urlOf f = none :=
  C7_failure_stream envCloneFail (by rfl)

/-- Witness for C9 at the clone-failure fixture environment: the error is
propagated with the failure frame in the trace, the cleanup call is in the
trace, and no install/deploy subprocess ever ran. -/
theorem C9_witness :
    (∃ m, (deploy envCloneFail).2 = Except.error m ∧
      DAct.frame 0 "Deployment failed" ("❌ " ++ m) none ∈
        (deploy envCloneFail).1) ∧
    DAct.cleanupCall ∈ (deploy envCloneFail).1 ∧
    DAct.runNpmInstall ∉ (deploy envCloneFail).1 ∧
    DAct.runDeploy ∉ (deploy envCloneFail).1 ∧
    (deploy envCloneFail).2.isOk = false :=
  ⟨(C9_failing_step_aborts envCloneFail).1 (by rfl),
   (C9_failing_step_aborts envCloneFail).2.1,
   ((C9_failing_step_aborts envCloneFail).2.2.2.1 rfl).1,
   ((C9_failing_step_aborts envCloneFail).2.2.2.1 rfl).2.2.2.2.1,
   ((C9_failing_step_aborts envCloneFail).2.2.2.1 rfl).2.2.2.2.2⟩

end SSTRepo
